import Mathlib

/-!
OpenRM-2024: process and observation functors, tracking-queue slots

A shallow embedding of the header-only code under `include/kalman/interface`.

* The Kalman functors are C++ templates over a scalar type `T` (a `double`, or
  a `ceres::Jet` when the filter differentiates them).  They are embedded as
  functions that are generic in `T`; `ceres::cos` / `ceres::sin` are passed in
  as the functions `cos sin : T → T`, and the `double` members (`dt`, `sign`)
  and literals are taken in `T` as well, which is what the implicit C++
  conversions do.  Theorems instantiate `T` with `ℝ` and `Real.cos`, `Real.sin`.
* An array `T x[n]` is a function `Fin n → T`.  The functors write their result
  into an output array that the caller owns, so each embedding takes the
  previous contents of that array and returns the contents after the call;
  an assignment `x1[i] = e` is `Function.update x1 i e`.
* `int` counters are `Int` (signed overflow is undefined behaviour in C++ and
  is outside the model).
-/

namespace rm

/-! ## antitopV1.h, antitopV2.h, antitopV3.h -/

/-- The functor `AntitopV1_FuncA`: its only member is `double dt`. -/
structure AntitopV1_FuncA (T : Type) where
  dt : T

/-- The call `AntitopV1_FuncA::operator()(x0, x1)`. -/
def AntitopV1_FuncA.call {T : Type} [Add T] [Mul T]
    (f : AntitopV1_FuncA T) (x0 x1 : Fin 9 → T) : Fin 9 → T :=
  let x1 := Function.update x1 0 (x0 0 + f.dt * x0 4)
  let x1 := Function.update x1 1 (x0 1 + f.dt * x0 5)
  let x1 := Function.update x1 2 (x0 2 + f.dt * x0 6)
  let x1 := Function.update x1 3 (x0 3 + f.dt * x0 7)
  let x1 := Function.update x1 4 (x0 4)
  let x1 := Function.update x1 5 (x0 5)
  let x1 := Function.update x1 6 (x0 6)
  let x1 := Function.update x1 7 (x0 7)
  let x1 := Function.update x1 8 (x0 8)
  x1

/-- The call `AntitopV1_FuncH::operator()(x, y)`. -/
def AntitopV1_FuncH {T : Type} [Sub T] [Mul T] (cos sin : T → T)
    (x : Fin 9 → T) (y : Fin 4 → T) : Fin 4 → T :=
  let y := Function.update y 0 (x 0 - x 8 * cos (x 3))
  let y := Function.update y 1 (x 1 - x 8 * sin (x 3))
  let y := Function.update y 2 (x 2)
  let y := Function.update y 3 (x 3)
  y

/-- The functor `AntitopV2_FuncA`: its only member is `double dt`. -/
structure AntitopV2_FuncA (T : Type) where
  dt : T

/-- The call `AntitopV2_FuncA::operator()(x0, x1)`. -/
def AntitopV2_FuncA.call {T : Type} [Add T] [Mul T]
    (f : AntitopV2_FuncA T) (x0 x1 : Fin 9 → T) : Fin 9 → T :=
  let x1 := Function.update x1 0 (x0 0 + f.dt * x0 4)
  let x1 := Function.update x1 1 (x0 1 + f.dt * x0 5)
  let x1 := Function.update x1 2 (x0 2 + f.dt * x0 6)
  let x1 := Function.update x1 3 (x0 3 + f.dt * x0 7)
  let x1 := Function.update x1 4 (x0 4)
  let x1 := Function.update x1 5 (x0 5)
  let x1 := Function.update x1 6 (x0 6)
  let x1 := Function.update x1 7 (x0 7)
  let x1 := Function.update x1 8 (x0 8)
  x1

/-- The call `AntitopV2_FuncH::operator()(x, y)`. -/
def AntitopV2_FuncH {T : Type} [Sub T] [Mul T] (cos sin : T → T)
    (x : Fin 9 → T) (y : Fin 4 → T) : Fin 4 → T :=
  let y := Function.update y 0 (x 0 - x 8 * cos (x 3))
  let y := Function.update y 1 (x 1 - x 8 * sin (x 3))
  let y := Function.update y 2 (x 2)
  let y := Function.update y 3 (x 3)
  y

/-- The functor `AntitopV3_FuncA`: its only member is `double dt`. -/
structure AntitopV3_FuncA (T : Type) where
  dt : T

/-- The call `AntitopV3_FuncA::operator()(x0, x1)`. -/
def AntitopV3_FuncA.call {T : Type} [Add T] [Mul T]
    (f : AntitopV3_FuncA T) (x0 x1 : Fin 9 → T) : Fin 9 → T :=
  let x1 := Function.update x1 0 (x0 0 + f.dt * x0 4)
  let x1 := Function.update x1 1 (x0 1 + f.dt * x0 5)
  let x1 := Function.update x1 2 (x0 2 + f.dt * x0 6)
  let x1 := Function.update x1 3 (x0 3 + f.dt * x0 7)
  let x1 := Function.update x1 4 (x0 4)
  let x1 := Function.update x1 5 (x0 5)
  let x1 := Function.update x1 6 (x0 6)
  let x1 := Function.update x1 7 (x0 7)
  let x1 := Function.update x1 8 (x0 8)
  x1

/-- The call `AntitopV3_FuncH::operator()(x, y)`. -/
def AntitopV3_FuncH {T : Type} [Sub T] [Mul T] (cos sin : T → T)
    (x : Fin 9 → T) (y : Fin 4 → T) : Fin 4 → T :=
  let y := Function.update y 0 (x 0 - x 8 * cos (x 3))
  let y := Function.update y 1 (x 1 - x 8 * sin (x 3))
  let y := Function.update y 2 (x 2)
  let y := Function.update y 3 (x 3)
  y

/-! ## runeV1.h, runeV2.h -/

/-- The constant `B_BASE`. -/
def B_BASE {T : Type} [OfScientific T] : T := 2.090

/-- The constant `R`, the blade radius. -/
def R {T : Type} [OfScientific T] : T := 0.69852

/-- The functor `SmallRuneV1_FuncA`: its only member is `double dt`. -/
structure SmallRuneV1_FuncA (T : Type) where
  dt : T

/-- The call `SmallRuneV1_FuncA::operator()(x0, x1)`. -/
def SmallRuneV1_FuncA.call {T : Type} [Add T] [Mul T]
    (f : SmallRuneV1_FuncA T) (x0 x1 : Fin 6 → T) : Fin 6 → T :=
  let x1 := Function.update x1 0 (x0 0)
  let x1 := Function.update x1 1 (x0 1)
  let x1 := Function.update x1 2 (x0 2)
  let x1 := Function.update x1 3 (x0 3)
  let x1 := Function.update x1 4 (x0 4 + f.dt * x0 5)
  let x1 := Function.update x1 5 (x0 5)
  x1

/-- The functor `BigRuneV1_FuncA`: members `double dt` and `double sign = 0.0`. -/
structure BigRuneV1_FuncA (T : Type) [OfScientific T] where
  dt : T
  sign : T := 0.0

/-- The call `BigRuneV1_FuncA::operator()(x0, x1)`. -/
def BigRuneV1_FuncA.call {T : Type} [OfScientific T] [Add T] [Sub T] [Mul T] (sin : T → T)
    (f : BigRuneV1_FuncA T) (x0 x1 : Fin 8 → T) : Fin 8 → T :=
  let x1 := Function.update x1 0 (x0 0)
  let x1 := Function.update x1 1 (x0 1)
  let x1 := Function.update x1 2 (x0 2)
  let x1 := Function.update x1 3 (x0 3)
  let x1 := Function.update x1 4
    (x0 4
      + f.sign * f.dt * (2.090 - x0 6)
      + f.sign * x0 6 * sin (x0 5) * f.dt)
  let x1 := Function.update x1 5 (x0 5 + x0 7 * f.dt)
  let x1 := Function.update x1 6 (x0 6)
  let x1 := Function.update x1 7 (x0 7)
  x1

/-- The call `SmallRuneV1_FuncH::operator()(x, y)`. -/
def SmallRuneV1_FuncH {T : Type} [OfScientific T] [Add T] [Sub T] [Mul T] (cos sin : T → T)
    (x : Fin 6 → T) (y : Fin 5 → T) : Fin 5 → T :=
  let y := Function.update y 0 (x 0 + R * cos (x 4) * sin (x 3))
  let y := Function.update y 1 (x 1 - R * cos (x 4) * cos (x 3))
  let y := Function.update y 2 (x 2 + R * sin (x 4))
  let y := Function.update y 3 (x 3)
  let y := Function.update y 4 (x 4)
  y

/-- The call `BigRuneV1_FuncH::operator()(x, y)`. -/
def BigRuneV1_FuncH {T : Type} [OfScientific T] [Add T] [Sub T] [Mul T] (cos sin : T → T)
    (x : Fin 8 → T) (y : Fin 5 → T) : Fin 5 → T :=
  let y := Function.update y 0 (x 0 + R * cos (x 4) * sin (x 3))
  let y := Function.update y 1 (x 1 - R * cos (x 4) * cos (x 3))
  let y := Function.update y 2 (x 2 + R * sin (x 4))
  let y := Function.update y 3 (x 3)
  let y := Function.update y 4 (x 4)
  y

/-- The functor `SmallRuneV2_FuncA`: its only member is `double dt`. -/
structure SmallRuneV2_FuncA (T : Type) where
  dt : T

/-- The call `SmallRuneV2_FuncA::operator()(x0, x1)`. -/
def SmallRuneV2_FuncA.call {T : Type} [Add T] [Mul T]
    (f : SmallRuneV2_FuncA T) (x0 x1 : Fin 6 → T) : Fin 6 → T :=
  let x1 := Function.update x1 0 (x0 0)
  let x1 := Function.update x1 1 (x0 1)
  let x1 := Function.update x1 2 (x0 2)
  let x1 := Function.update x1 3 (x0 3)
  let x1 := Function.update x1 4 (x0 4 + f.dt * x0 5)
  let x1 := Function.update x1 5 (x0 5)
  x1

/-- The functor `BigRuneV2_FuncA`: members `double dt` and `double sign = 0.0`. -/
structure BigRuneV2_FuncA (T : Type) [OfScientific T] where
  dt : T
  sign : T := 0.0

/-- The call `BigRuneV2_FuncA::operator()(x0, x1)`. -/
def BigRuneV2_FuncA.call {T : Type} [OfScientific T] [Add T] [Sub T] [Mul T] (sin : T → T)
    (f : BigRuneV2_FuncA T) (x0 x1 : Fin 8 → T) : Fin 8 → T :=
  let x1 := Function.update x1 0 (x0 0)
  let x1 := Function.update x1 1 (x0 1)
  let x1 := Function.update x1 2 (x0 2)
  let x1 := Function.update x1 3 (x0 3)
  let x1 := Function.update x1 4
    (x0 4
      + f.sign * f.dt * (2.090 - x0 6)
      + f.sign * x0 6 * sin (x0 5) * f.dt)
  let x1 := Function.update x1 5 (x0 5 + x0 7 * f.dt)
  let x1 := Function.update x1 6 (x0 6)
  let x1 := Function.update x1 7 (x0 7)
  x1

/-- The call `SmallRuneV2_FuncH::operator()(x, y)`. -/
def SmallRuneV2_FuncH {T : Type} [OfScientific T] [Add T] [Sub T] [Mul T] (cos sin : T → T)
    (x : Fin 6 → T) (y : Fin 5 → T) : Fin 5 → T :=
  let y := Function.update y 0 (x 0 + R * cos (x 4) * sin (x 3))
  let y := Function.update y 1 (x 1 - R * cos (x 4) * cos (x 3))
  let y := Function.update y 2 (x 2 + R * sin (x 4))
  let y := Function.update y 3 (x 3)
  let y := Function.update y 4 (x 4)
  y

/-- The call `BigRuneV2_FuncH::operator()(x, y)`. -/
def BigRuneV2_FuncH {T : Type} [OfScientific T] [Add T] [Sub T] [Mul T] (cos sin : T → T)
    (x : Fin 8 → T) (y : Fin 5 → T) : Fin 5 → T :=
  let y := Function.update y 0 (x 0 + R * cos (x 4) * sin (x 3))
  let y := Function.update y 1 (x 1 - R * cos (x 4) * cos (x 3))
  let y := Function.update y 2 (x 2 + R * sin (x 4))
  let y := Function.update y 3 (x 3)
  let y := Function.update y 4 (x 4)
  y

/-! ## trackqueueV1.h … trackqueueV4.h: the slot classes

`Time` is `TimePoint` and `T` the scalar of `Eigen::Matrix<double, 4, 1>`.  The filter
classes `KF` / `EKF` and the window class `SlideStd` are declared in headers that are not
part of these files: the state of the object behind each pointer member is a value of a
type parameter (`KF`, `Std`), and the methods the slot calls on it (`restart`, `clear`)
are function parameters. -/

/-- A call on a V1 / V2 slot: `clear()` or `update(pose, t)`. -/
inductive TQcall (Time T : Type) where
  | clear : TQcall Time T
  | update (pose : Fin 4 → T) (t : Time) : TQcall Time T

/-- Class `TQstateV1`. -/
structure TQstateV1 (Time T KF Std : Type) where
  last_t : Time
  last_pose : Fin 4 → T
  model : KF
  v_std : Std
  count : Int
  exist : Bool
  available : Bool

/-- The constructor `TQstateV1::TQstateV1()`: `now` is the value of `getTime()`, `pose0` the
contents of the member `last_pose`, which the constructor does not initialise, `kf0` the
new `KF<6, 4>()` and `std0` the new `SlideStd<double>(10)`. -/
def TQstateV1.ctor {Time T KF Std : Type} (now : Time) (pose0 : Fin 4 → T) (kf0 : KF)
    (std0 : Std) : TQstateV1 Time T KF Std :=
  { last_t := now, last_pose := pose0, model := kf0, v_std := std0,
    count := 0, exist := false, available := false }

/-- The method `TQstateV1::clear()`. -/
def TQstateV1.clear {Time T KF Std : Type} (restart : KF → KF) (clearStd : Std → Std)
    (s : TQstateV1 Time T KF Std) : TQstateV1 Time T KF Std :=
  { s with
    count := 0
    exist := false
    available := false
    model := restart s.model
    v_std := clearStd s.v_std }

/-- The method `TQstateV1::update(pose, t)`. -/
def TQstateV1.update {Time T KF Std : Type} (s : TQstateV1 Time T KF Std)
    (pose : Fin 4 → T) (t : Time) : TQstateV1 Time T KF Std :=
  { s with
    last_t := t
    last_pose := pose
    count := s.count + 2
    exist := true
    available := true }

/-- One call on a V1 slot. -/
def TQstateV1.step {Time T KF Std : Type} (restart : KF → KF) (clearStd : Std → Std)
    (s : TQstateV1 Time T KF Std) : TQcall Time T → TQstateV1 Time T KF Std
  | .clear => s.clear restart clearStd
  | .update pose t => s.update pose t

/-- A sequence of calls on a V1 slot, first call first. -/
def TQstateV1.run {Time T KF Std : Type} (restart : KF → KF) (clearStd : Std → Std)
    (s : TQstateV1 Time T KF Std) (calls : List (TQcall Time T)) : TQstateV1 Time T KF Std :=
  calls.foldl (TQstateV1.step restart clearStd) s

/-- Class `TQstateV2`. -/
structure TQstateV2 (Time T EKF Std : Type) where
  last_t : Time
  last_pose : Fin 4 → T
  model : EKF
  v_std : Std
  a_std : Std
  w_std : Std
  count : Int
  keep : Int
  exist : Bool
  available : Bool

/-- The constructor `TQstateV2::TQstateV2()`: `now` is the value of `getTime()`, `pose0` the
contents of the member `last_pose`, which the constructor does not initialise, `ekf0` the
new `EKF<11, 4>()` and `std0` a new `SlideStd<double>(5)`. -/
def TQstateV2.ctor {Time T EKF Std : Type} (now : Time) (pose0 : Fin 4 → T) (ekf0 : EKF)
    (std0 : Std) : TQstateV2 Time T EKF Std :=
  { last_t := now, last_pose := pose0, model := ekf0, v_std := std0, a_std := std0,
    w_std := std0, count := 0, keep := 5, exist := false, available := false }

/-- The method `TQstateV2::clear()`. -/
def TQstateV2.clear {Time T EKF Std : Type} (restart : EKF → EKF) (clearStd : Std → Std)
    (s : TQstateV2 Time T EKF Std) : TQstateV2 Time T EKF Std :=
  { s with
    count := 0
    keep := 5
    exist := false
    available := false
    model := restart s.model
    v_std := clearStd s.v_std
    a_std := clearStd s.a_std
    w_std := clearStd s.w_std }

/-- The method `TQstateV2::update(pose, t)`. -/
def TQstateV2.update {Time T EKF Std : Type} (s : TQstateV2 Time T EKF Std)
    (pose : Fin 4 → T) (t : Time) : TQstateV2 Time T EKF Std :=
  { s with
    last_t := t
    last_pose := pose
    count := s.count + 1
    keep := 5
    exist := true
    available := true }

/-- One call on a V2 slot. -/
def TQstateV2.step {Time T EKF Std : Type} (restart : EKF → EKF) (clearStd : Std → Std)
    (s : TQstateV2 Time T EKF Std) : TQcall Time T → TQstateV2 Time T EKF Std
  | .clear => s.clear restart clearStd
  | .update pose t => s.update pose t

/-- A sequence of calls on a V2 slot, first call first. -/
def TQstateV2.run {Time T EKF Std : Type} (restart : EKF → EKF) (clearStd : Std → Std)
    (s : TQstateV2 Time T EKF Std) (calls : List (TQcall Time T)) : TQstateV2 Time T EKF Std :=
  calls.foldl (TQstateV2.step restart clearStd) s

/-- Class `TQstateV3`. -/
structure TQstateV3 (Time T EKF : Type) where
  last_t : Time
  last_pose : Fin 4 → T
  model : EKF
  count : Int
  keep : Int
  available : Bool

/-- The constructor `TQstateV3::TQstateV3()`: `now` is the value of `getTime()`, `pose0` the
contents of the uninitialised member `last_pose` and `ekf0` the new `EKF<11, 4>()`. -/
def TQstateV3.ctor {Time T EKF : Type} (now : Time) (pose0 : Fin 4 → T) (ekf0 : EKF) :
    TQstateV3 Time T EKF :=
  { last_t := now, last_pose := pose0, model := ekf0, count := 0, keep := 5,
    available := false }

/-- The method `TQstateV3::refresh(pose, t)`. -/
def TQstateV3.refresh {Time T EKF : Type} (s : TQstateV3 Time T EKF)
    (pose : Fin 4 → T) (t : Time) : TQstateV3 Time T EKF :=
  { s with
    last_t := t
    last_pose := pose
    count := s.count + 1
    keep := 5
    available := true }

/-- Class `TQstateV4`. -/
structure TQstateV4 (Time T EKF : Type) where
  last_t : Time
  last_pose : Fin 4 → T
  model : EKF
  count : Int
  keep : Int
  available : Bool

/-- The constructor `TQstateV4::TQstateV4()`: `now` is the value of `getTime()`, `pose0` the
contents of the uninitialised member `last_pose` and `ekf0` the new `EKF<8, 3>()`. -/
def TQstateV4.ctor {Time T EKF : Type} (now : Time) (pose0 : Fin 4 → T) (ekf0 : EKF) :
    TQstateV4 Time T EKF :=
  { last_t := now, last_pose := pose0, model := ekf0, count := 0, keep := 5,
    available := false }

/-- The method `TQstateV4::refresh(pose, t)`. -/
def TQstateV4.refresh {Time T EKF : Type} (s : TQstateV4 Time T EKF)
    (pose : Fin 4 → T) (t : Time) : TQstateV4 Time T EKF :=
  { s with
    last_t := t
    last_pose := pose
    count := s.count + 1
    keep := 5
    available := true }

/-- The default of `TrackQueueV1::min_count_`. -/
def TrackQueueV1.min_count_ : Int := 5

/-- The default of `TrackQueueV2::count_`. -/
def TrackQueueV2.count_ : Int := 10

/-- A sequence of `refresh(pose, t)` calls on a V3 slot, first call first. -/
def TQstateV3.run {Time T EKF : Type} (s : TQstateV3 Time T EKF)
    (calls : List ((Fin 4 → T) × Time)) : TQstateV3 Time T EKF :=
  calls.foldl (fun s c => s.refresh c.1 c.2) s

/-- A sequence of `refresh(pose, t)` calls on a V4 slot, first call first. -/
def TQstateV4.run {Time T EKF : Type} (s : TQstateV4 Time T EKF)
    (calls : List ((Fin 4 → T) × Time)) : TQstateV4 Time T EKF :=
  calls.foldl (fun s c => s.refresh c.1 c.2) s

/-! ## trackqueueV1.h … trackqueueV4.h, antitopV3.h: observation functors and matrix builders

The builders of the linear filters are templates over an Eigen matrix type; the filters that
call them are `KF<6, 4>` (tracking queue V1) and `KF<3, 1>` (the angular filter of
`AntitopV3`), which fixes the shapes below.  A matrix is a `Matrix (Fin m) (Fin n) S`; the
builders overwrite the matrix they are handed. -/

/-- The assignment `A(i, j) = v` on an Eigen matrix. -/
def setCoeff {m n : Nat} {S : Type} (A : Matrix (Fin m) (Fin n) S) (i : Fin m) (j : Fin n)
    (v : S) : Matrix (Fin m) (Fin n) S :=
  Function.update A i (Function.update (A i) j v)

/-- The functor `TrackQueueV1_FuncA`: its only member is `double dt`. -/
structure TrackQueueV1_FuncA (S : Type) where
  dt : S

/-- The call `TrackQueueV1_FuncA::operator()(A)`, on the 6×6 matrix of `KF<6, 4>`. -/
def TrackQueueV1_FuncA.call {S : Type} [Zero S] [One S] (f : TrackQueueV1_FuncA S)
    (_A : Matrix (Fin 6) (Fin 6) S) : Matrix (Fin 6) (Fin 6) S :=
  let A : Matrix (Fin 6) (Fin 6) S := 1
  let A := setCoeff A 0 4 f.dt
  let A := setCoeff A 1 5 f.dt
  A

/-- The call `TrackQueueV1_FuncH::operator()(H)`, on the 4×6 matrix of `KF<6, 4>`. -/
def TrackQueueV1_FuncH {S : Type} [Zero S] [One S]
    (_H : Matrix (Fin 4) (Fin 6) S) : Matrix (Fin 4) (Fin 6) S :=
  let H : Matrix (Fin 4) (Fin 6) S := 0
  let H := setCoeff H 0 0 1
  let H := setCoeff H 1 1 1
  let H := setCoeff H 2 2 1
  let H := setCoeff H 3 3 1
  H

/-- The call `TrackQueueV2_FuncH::operator()(x, y)`. -/
def TrackQueueV2_FuncH {T : Type} (x : Fin 11 → T) (y : Fin 4 → T) : Fin 4 → T :=
  let y := Function.update y 0 (x 0)
  let y := Function.update y 1 (x 1)
  let y := Function.update y 2 (x 2)
  let y := Function.update y 3 (x 3)
  y

/-- The call `TrackQueueV3_FuncH::operator()(x, y)`. -/
def TrackQueueV3_FuncH {T : Type} (x : Fin 11 → T) (y : Fin 4 → T) : Fin 4 → T :=
  let y := Function.update y 0 (x 0)
  let y := Function.update y 1 (x 1)
  let y := Function.update y 2 (x 2)
  let y := Function.update y 3 (x 3)
  y

/-- The call `TrackQueueV4_FuncH::operator()(x, y)`. -/
def TrackQueueV4_FuncH {T : Type} (x : Fin 8 → T) (y : Fin 3 → T) : Fin 3 → T :=
  let y := Function.update y 0 (x 0)
  let y := Function.update y 1 (x 1)
  let y := Function.update y 2 (x 2)
  y

/-- The functor `AntitopV3_OmegaFuncA`: its only member is `double dt`. -/
structure AntitopV3_OmegaFuncA (S : Type) where
  dt : S

/-- The call `AntitopV3_OmegaFuncA::operator()(A)`, on the 3×3 matrix of `KF<3, 1>`. -/
def AntitopV3_OmegaFuncA.call {S : Type} [Zero S] [One S] [Mul S] (f : AntitopV3_OmegaFuncA S)
    (_A : Matrix (Fin 3) (Fin 3) S) : Matrix (Fin 3) (Fin 3) S :=
  let A : Matrix (Fin 3) (Fin 3) S := 1
  let A := setCoeff A 0 1 f.dt
  let A := setCoeff A 1 2 f.dt
  let A := setCoeff A 0 2 (f.dt * f.dt)
  A

/-- The call `AntitopV3_OmegaFuncH::operator()(H)`, on the 1×3 matrix of `KF<3, 1>`. -/
def AntitopV3_OmegaFuncH {S : Type} [Zero S] [One S]
    (_H : Matrix (Fin 1) (Fin 3) S) : Matrix (Fin 1) (Fin 3) S :=
  let H : Matrix (Fin 1) (Fin 3) S := 0
  let H := setCoeff H 0 0 1
  H

/-! ## antitopV3.h: the class `AntitopV3` -/

/-- The data members of class `AntitopV3` that carry a default member initialiser.  The
filters, the functors, the window pointer and `t_` have none, and the methods embedded
here neither read nor write them. -/
structure AntitopV3 (T : Type) where
  r_ : Fin 2 → T
  z_ : Fin 2 → T
  r_min_ : T
  r_max_ : T
  fire_update_ : Int
  fire_delay_ : T
  fire_armor_angle_ : T
  fire_center_angle_ : T
  toggle_ : Int
  armor_num_ : Int
  update_num_ : Int
  enable_weighted_ : Bool

/-- The default member values of class `AntitopV3`. -/
def AntitopV3.init {T : Type} [OfScientific T] [Zero T] : AntitopV3 T :=
  { r_ := ![0.25, 0.25]
    z_ := ![0, 0]
    r_min_ := 0.15
    r_max_ := 0.4
    fire_update_ := 100
    fire_delay_ := 0.5
    fire_armor_angle_ := 0.5
    fire_center_angle_ := 0.2
    toggle_ := 0
    armor_num_ := 4
    update_num_ := 0
    enable_weighted_ := false }

/-- The method `AntitopV3::setRadiusRange(r_min, r_max)`. -/
def AntitopV3.setRadiusRange {T : Type} (s : AntitopV3 T) (r_min r_max : T) : AntitopV3 T :=
  { s with r_min_ := r_min, r_max_ := r_max }

/-- A sequence of `setRadiusRange(r_min, r_max)` calls, first call first. -/
def AntitopV3.run {T : Type} (s : AntitopV3 T) (calls : List (T × T)) : AntitopV3 T :=
  calls.foldl (fun s c => s.setRadiusRange c.1 c.2) s

/-! ## runeV1.h, runeV2.h: the remaining constants

Both headers define the same seven constants, with the same names and values, in namespace
`rm`; each has one definition here.  `M_PI` is the macro of `<cmath>`; it is a parameter. -/

/-- The constant `A_MIN`. -/
def A_MIN {T : Type} [OfScientific T] : T := 0.780

/-- The constant `A_MAX`. -/
def A_MAX {T : Type} [OfScientific T] : T := 1.045

/-- The constant `W_MIN`. -/
def W_MIN {T : Type} [OfScientific T] : T := 1.884

/-- The constant `W_MAX`. -/
def W_MAX {T : Type} [OfScientific T] : T := 2.000

/-- The constant `SMALL_RUNE_SPD`, `M_PI / 3`. -/
def SMALL_RUNE_SPD {T : Type} [Div T] [OfNat T 3] (M_PI : T) : T := M_PI / 3

/-! ## Angle arithmetic

`getAngleTrans` and `getSafeSub` are declared as private methods in `antitopV3.h`,
`runeV1.h` and `runeV2.h`; their bodies are in source files outside these headers. -/

/-- Modelled from the spec: the body of `getSafeSub(a, b)` (the spec's `safe_sub`), which is
missing.  The spec: "Returns the signed shortest-arc difference `a − b` mapped to
`[−π, π]`."  The difference is reduced by the whole number of turns that brings it into
the window of length 2π around zero; `pi` is the value of π in the scalar type. -/
def getSafeSub {T : Type} [LinearOrderedField T] [FloorRing T] (pi a b : T) : T :=
  (a - b) - 2 * pi * (⌊(a - b + pi) / (2 * pi)⌋ : Int)

/-- Modelled from the spec: the body of the two-argument `getAngleTrans(ref, raw)` (the
spec's `angle_align`), which is missing.  The spec: "Returns the real number `r` such that
`r ≡ raw (mod 2π)` and `|r − ref| ≤ |r′ − ref|` for every other representative `r′`.
Implementation note: add integer multiples of 2π to `raw` until the residual is in
`[ref − π, ref + π]`."  `pi` is the value of π in the scalar type. -/
def getAngleTrans {T : Type} [LinearOrderedField T] [FloorRing T] (pi ref raw : T) : T :=
  raw - 2 * pi * (⌊(raw - ref + pi) / (2 * pi)⌋ : Int)

/-! ## trackqueueV2.h, trackqueueV3.h, trackqueueV4.h: process functors -/

/-- The functor `TrackQueueV2_FuncA`: its only member is `double dt`. -/
structure TrackQueueV2_FuncA (T : Type) where
  dt : T

/-- The call `TrackQueueV2_FuncA::operator()(x0, x1)`.  The body has no assignment to
`x1[10]`. -/
def TrackQueueV2_FuncA.call {T : Type} [OfScientific T] [Add T] [Mul T]
    (f : TrackQueueV2_FuncA T) (x0 x1 : Fin 11 → T) : Fin 11 → T :=
  let x1 := Function.update x1 0 (x0 0 + f.dt * x0 4 + 0.5 * x0 8 * f.dt * f.dt)
  let x1 := Function.update x1 1 (x0 1 + f.dt * x0 5 + 0.5 * x0 9 * f.dt * f.dt)
  let x1 := Function.update x1 2 (x0 2 + f.dt * x0 6)
  let x1 := Function.update x1 3 (x0 3 + f.dt * x0 7 + 0.5 * x0 10 * f.dt * f.dt)
  let x1 := Function.update x1 4 (x0 4 + f.dt * x0 8)
  let x1 := Function.update x1 5 (x0 5 + f.dt * x0 9)
  let x1 := Function.update x1 6 (x0 6)
  let x1 := Function.update x1 7 (x0 7 + f.dt * x0 10)
  let x1 := Function.update x1 8 (x0 8)
  let x1 := Function.update x1 9 (x0 9)
  x1

/-- The functor `TrackQueueV3_FuncA`: its only member is `double dt`. -/
structure TrackQueueV3_FuncA (T : Type) where
  dt : T

/-- The call `TrackQueueV3_FuncA::operator()(x0, x1)`.  The body has no assignment to
`x1[10]`. -/
def TrackQueueV3_FuncA.call {T : Type} [OfScientific T] [Add T] [Mul T]
    (f : TrackQueueV3_FuncA T) (x0 x1 : Fin 11 → T) : Fin 11 → T :=
  let x1 := Function.update x1 0 (x0 0 + f.dt * x0 4 + 0.5 * x0 8 * f.dt * f.dt)
  let x1 := Function.update x1 1 (x0 1 + f.dt * x0 5 + 0.5 * x0 9 * f.dt * f.dt)
  let x1 := Function.update x1 2 (x0 2 + f.dt * x0 6)
  let x1 := Function.update x1 3 (x0 3 + f.dt * x0 7 + 0.5 * x0 10 * f.dt * f.dt)
  let x1 := Function.update x1 4 (x0 4 + f.dt * x0 8)
  let x1 := Function.update x1 5 (x0 5 + f.dt * x0 9)
  let x1 := Function.update x1 6 (x0 6)
  let x1 := Function.update x1 7 (x0 7 + f.dt * x0 10)
  let x1 := Function.update x1 8 (x0 8)
  let x1 := Function.update x1 9 (x0 9)
  x1

/-- The functor `TrackQueueV4_FuncA`: its only member is `double dt`. -/
structure TrackQueueV4_FuncA (T : Type) where
  dt : T

/-- The call `TrackQueueV4_FuncA::operator()(x0, x1)`. -/
def TrackQueueV4_FuncA.call {T : Type} [OfScientific T] [Add T] [Mul T] (cos sin : T → T)
    (f : TrackQueueV4_FuncA T) (x0 x1 : Fin 8 → T) : Fin 8 → T :=
  let x1 := Function.update x1 0
    (x0 0 + f.dt * x0 3 * cos (x0 5) + 0.5 * f.dt * f.dt * x0 7 * cos (x0 5))
  let x1 := Function.update x1 1
    (x0 1 + f.dt * x0 3 * sin (x0 5) + 0.5 * f.dt * f.dt * x0 7 * sin (x0 5))
  let x1 := Function.update x1 2 (x0 2 + f.dt * x0 4)
  let x1 := Function.update x1 3 (x0 3 + f.dt * x0 7)
  let x1 := Function.update x1 4 (x0 4)
  let x1 := Function.update x1 5 (x0 5 + f.dt * x0 6)
  let x1 := Function.update x1 6 (x0 6)
  let x1 := Function.update x1 7 (x0 7)
  x1

/-! ## Theorems -/

/-- C1: for every anti-top state `(x, y, z, θ, vx, vy, vz, ω, r)`, the observation
functors `AntitopV1_FuncH`, `AntitopV2_FuncH` and `AntitopV3_FuncH` all return
`(x − r·cos θ, y − r·sin θ, z, θ)`, whatever the output array held before. -/
theorem antitop_FuncH_observation (x y z θ vx vy vz ω r : ℝ) (y0 : Fin 4 → ℝ) :
    AntitopV1_FuncH Real.cos Real.sin ![x, y, z, θ, vx, vy, vz, ω, r] y0
        = ![x - r * Real.cos θ, y - r * Real.sin θ, z, θ]
    ∧ AntitopV2_FuncH Real.cos Real.sin ![x, y, z, θ, vx, vy, vz, ω, r] y0
        = ![x - r * Real.cos θ, y - r * Real.sin θ, z, θ]
    ∧ AntitopV3_FuncH Real.cos Real.sin ![x, y, z, θ, vx, vy, vz, ω, r] y0
        = ![x - r * Real.cos θ, y - r * Real.sin θ, z, θ] := by
  refine ⟨?_, ?_, ?_⟩ <;>
  · funext i
    fin_cases i <;> rfl

/-- C2: for every anti-top state and every `dt`, the process functors
`AntitopV1_FuncA`, `AntitopV2_FuncA` and `AntitopV3_FuncA` return
`(x + dt·vx, y + dt·vy, z + dt·vz, θ + dt·ω, vx, vy, vz, ω, r)`: a constant-velocity
step that leaves the four rates and the radius unchanged. -/
theorem antitop_FuncA_constant_velocity (dt x y z θ vx vy vz ω r : ℝ) (y0 : Fin 9 → ℝ) :
    AntitopV1_FuncA.call ⟨dt⟩ ![x, y, z, θ, vx, vy, vz, ω, r] y0
        = ![x + dt * vx, y + dt * vy, z + dt * vz, θ + dt * ω, vx, vy, vz, ω, r]
    ∧ AntitopV2_FuncA.call ⟨dt⟩ ![x, y, z, θ, vx, vy, vz, ω, r] y0
        = ![x + dt * vx, y + dt * vy, z + dt * vz, θ + dt * ω, vx, vy, vz, ω, r]
    ∧ AntitopV3_FuncA.call ⟨dt⟩ ![x, y, z, θ, vx, vy, vz, ω, r] y0
        = ![x + dt * vx, y + dt * vy, z + dt * vz, θ + dt * ω, vx, vy, vz, ω, r] := by
  refine ⟨?_, ?_, ?_⟩ <;>
  · funext i
    fin_cases i <;> rfl

/-- C3: for every rune state, the small-rune and big-rune observation functors of
`runeV1.h` and `runeV2.h` return the blade tip
`(x + R·cos φ·sin θ, y − R·cos φ·cos θ, z + R·sin φ)` followed by `(θ, φ)`, with
`R = 0.69852`; the big-rune result is the same for every `p`, `a`, `w`. -/
theorem rune_FuncH_blade_tip (x y z θ φ ω p a w : ℝ) (y0 : Fin 5 → ℝ) :
    SmallRuneV1_FuncH Real.cos Real.sin ![x, y, z, θ, φ, ω] y0
        = ![x + 0.69852 * Real.cos φ * Real.sin θ, y - 0.69852 * Real.cos φ * Real.cos θ,
            z + 0.69852 * Real.sin φ, θ, φ]
    ∧ SmallRuneV2_FuncH Real.cos Real.sin ![x, y, z, θ, φ, ω] y0
        = ![x + 0.69852 * Real.cos φ * Real.sin θ, y - 0.69852 * Real.cos φ * Real.cos θ,
            z + 0.69852 * Real.sin φ, θ, φ]
    ∧ BigRuneV1_FuncH Real.cos Real.sin ![x, y, z, θ, φ, p, a, w] y0
        = ![x + 0.69852 * Real.cos φ * Real.sin θ, y - 0.69852 * Real.cos φ * Real.cos θ,
            z + 0.69852 * Real.sin φ, θ, φ]
    ∧ BigRuneV2_FuncH Real.cos Real.sin ![x, y, z, θ, φ, p, a, w] y0
        = ![x + 0.69852 * Real.cos φ * Real.sin θ, y - 0.69852 * Real.cos φ * Real.cos θ,
            z + 0.69852 * Real.sin φ, θ, φ]
    ∧ (∀ p2 a2 w2 : ℝ,
        BigRuneV1_FuncH Real.cos Real.sin ![x, y, z, θ, φ, p2, a2, w2] y0
          = BigRuneV1_FuncH Real.cos Real.sin ![x, y, z, θ, φ, p, a, w] y0
        ∧ BigRuneV2_FuncH Real.cos Real.sin ![x, y, z, θ, φ, p2, a2, w2] y0
          = BigRuneV2_FuncH Real.cos Real.sin ![x, y, z, θ, φ, p, a, w] y0) := by
  refine ⟨?_, ?_, ?_, ?_, fun p2 a2 w2 => ⟨?_, ?_⟩⟩ <;>
  · funext i
    fin_cases i <;>
      simp [SmallRuneV1_FuncH, SmallRuneV2_FuncH, BigRuneV1_FuncH, BigRuneV2_FuncH, R]

/-- C6: for every small-rune state `(x, y, z, θ, φ, ω)` and every `dt`, the small-rune
transition (`runeV1.h` and `runeV2.h`) returns the same state with only `φ`
replaced by `φ + ω·dt`. -/
theorem smallRune_FuncA_step (dt x y z θ φ ω : ℝ) (y0 : Fin 6 → ℝ) :
    SmallRuneV1_FuncA.call ⟨dt⟩ ![x, y, z, θ, φ, ω] y0 = ![x, y, z, θ, φ + ω * dt, ω]
    ∧ SmallRuneV2_FuncA.call ⟨dt⟩ ![x, y, z, θ, φ, ω] y0 = ![x, y, z, θ, φ + ω * dt, ω] := by
  rw [mul_comm ω dt]
  refine ⟨?_, ?_⟩ <;>
  · funext i
    fin_cases i <;> rfl

/-- C4 (as stated) fails: with `sign = 1`, state `(0, 0, 0, 0, 0, p = 0, a = 1, w = 2)`
and `dt = π/2`, both big-rune transitions return `φ' = (π/2)·1.09`, the speed being
taken at phase `p`, whereas the midpoint formula gives `(π/2)·(sin (π/2) + 1.09)`. -/
theorem bigRune_FuncA_midpoint_counterexample :
    BigRuneV1_FuncA.call Real.sin ⟨Real.pi / 2, 1⟩ ![0, 0, 0, 0, 0, 0, 1, 2] (fun _ => 0) 4
        ≠ 0 + Real.pi / 2 * (1 * Real.sin (0 + 2 * (Real.pi / 2) / 2) + (B_BASE - 1))
    ∧ BigRuneV2_FuncA.call Real.sin ⟨Real.pi / 2, 1⟩ ![0, 0, 0, 0, 0, 0, 1, 2] (fun _ => 0) 4
        ≠ 0 + Real.pi / 2 * (1 * Real.sin (0 + 2 * (Real.pi / 2) / 2) + (B_BASE - 1)) := by
  have hmid : (0 : ℝ) + 2 * (Real.pi / 2) / 2 = Real.pi / 2 := by ring
  have hpi : (0 : ℝ) < Real.pi := Real.pi_pos
  have hcode : ∀ y0 : Fin 8 → ℝ,
      BigRuneV1_FuncA.call Real.sin ⟨Real.pi / 2, 1⟩ ![0, 0, 0, 0, 0, 0, 1, 2] y0 4
          = 0 + 1 * (Real.pi / 2) * (2.090 - 1) + 1 * 1 * Real.sin 0 * (Real.pi / 2)
      ∧ BigRuneV2_FuncA.call Real.sin ⟨Real.pi / 2, 1⟩ ![0, 0, 0, 0, 0, 0, 1, 2] y0 4
          = 0 + 1 * (Real.pi / 2) * (2.090 - 1) + 1 * 1 * Real.sin 0 * (Real.pi / 2) :=
    fun _ => ⟨rfl, rfl⟩
  rw [(hcode _).1, (hcode _).2, hmid, Real.sin_pi_div_two, Real.sin_zero]
  simp only [B_BASE]
  constructor <;>
  · intro h
    norm_num at h
    linarith

/-- C4 (amended): for every big-rune state `(x, y, z, θ, φ, p, a, w)`, every `dt` and every
direction `sign`, the big-rune transition (`runeV1.h` and `runeV2.h`) advances the blade
angle by `sign·dt` times the instantaneous speed at phase `p`, the start of the step:
`φ' = φ + sign·dt·(a·sin p + (B_BASE − a))`. -/
theorem bigRune_FuncA_blade_angle (dt sign x y z θ φ p a w : ℝ) (y0 : Fin 8 → ℝ) :
    BigRuneV1_FuncA.call Real.sin ⟨dt, sign⟩ ![x, y, z, θ, φ, p, a, w] y0 4
        = φ + sign * dt * (a * Real.sin p + (B_BASE - a))
    ∧ BigRuneV2_FuncA.call Real.sin ⟨dt, sign⟩ ![x, y, z, θ, φ, p, a, w] y0 4
        = φ + sign * dt * (a * Real.sin p + (B_BASE - a)) := by
  have hcode :
      BigRuneV1_FuncA.call Real.sin ⟨dt, sign⟩ ![x, y, z, θ, φ, p, a, w] y0 4
          = φ + sign * dt * (2.090 - a) + sign * a * Real.sin p * dt
      ∧ BigRuneV2_FuncA.call Real.sin ⟨dt, sign⟩ ![x, y, z, θ, φ, p, a, w] y0 4
          = φ + sign * dt * (2.090 - a) + sign * a * Real.sin p * dt := ⟨rfl, rfl⟩
  rw [hcode.1, hcode.2]
  simp only [B_BASE]
  constructor <;> ring

/-- C5 (as stated) fails: with `dt = 1` and state `(0, 0, 0, 0, 0, p = 0, a = 1, w = 2)`,
both big-rune transitions return the phase component `p' = 2`, not the input `p = 0`. -/
theorem bigRune_FuncA_phase_counterexample :
    BigRuneV1_FuncA.call Real.sin ⟨1, 1⟩ ![0, 0, 0, 0, 0, 0, 1, 2] (fun _ => 0) 5
        ≠ (![0, 0, 0, 0, 0, 0, 1, 2] : Fin 8 → ℝ) 5
    ∧ BigRuneV2_FuncA.call Real.sin ⟨1, 1⟩ ![0, 0, 0, 0, 0, 0, 1, 2] (fun _ => 0) 5
        ≠ (![0, 0, 0, 0, 0, 0, 1, 2] : Fin 8 → ℝ) 5 := by
  have hcode : ∀ y0 : Fin 8 → ℝ,
      BigRuneV1_FuncA.call Real.sin ⟨1, 1⟩ ![0, 0, 0, 0, 0, 0, 1, 2] y0 5 = 0 + 2 * 1
      ∧ BigRuneV2_FuncA.call Real.sin ⟨1, 1⟩ ![0, 0, 0, 0, 0, 0, 1, 2] y0 5 = 0 + 2 * 1 :=
    fun _ => ⟨rfl, rfl⟩
  have hin : (![0, 0, 0, 0, 0, 0, 1, 2] : Fin 8 → ℝ) 5 = 0 := rfl
  rw [(hcode _).1, (hcode _).2, hin]
  constructor <;> norm_num

/-- C5 (amended): for every big-rune state and every `dt` (and every `sign`), the big-rune
transition (`runeV1.h` and `runeV2.h`) returns the amplitude `a` and the frequency `w`
unchanged, and advances the phase: `p' = p + w·dt`. -/
theorem bigRune_FuncA_parameters (dt sign x y z θ φ p a w : ℝ) (y0 : Fin 8 → ℝ) :
    (BigRuneV1_FuncA.call Real.sin ⟨dt, sign⟩ ![x, y, z, θ, φ, p, a, w] y0 5 = p + w * dt
      ∧ BigRuneV1_FuncA.call Real.sin ⟨dt, sign⟩ ![x, y, z, θ, φ, p, a, w] y0 6 = a
      ∧ BigRuneV1_FuncA.call Real.sin ⟨dt, sign⟩ ![x, y, z, θ, φ, p, a, w] y0 7 = w)
    ∧ (BigRuneV2_FuncA.call Real.sin ⟨dt, sign⟩ ![x, y, z, θ, φ, p, a, w] y0 5 = p + w * dt
      ∧ BigRuneV2_FuncA.call Real.sin ⟨dt, sign⟩ ![x, y, z, θ, φ, p, a, w] y0 6 = a
      ∧ BigRuneV2_FuncA.call Real.sin ⟨dt, sign⟩ ![x, y, z, θ, φ, p, a, w] y0 7 = w) :=
  ⟨⟨rfl, rfl, rfl⟩, ⟨rfl, rfl, rfl⟩⟩

/-- C7: for every slot state, pose and timestamp `t`, `TQstateV2::update`,
`TQstateV3::refresh` and `TQstateV4::refresh` set `last_pose` to the pose, `last_t` to `t`,
increase `count` by exactly one and set `keep` to 5. -/
theorem TQstate_update_sets_fields {Time T EKF Std : Type} (s2 : TQstateV2 Time T EKF Std)
    (s3 : TQstateV3 Time T EKF) (s4 : TQstateV4 Time T EKF) (pose : Fin 4 → T) (t : Time) :
    ((s2.update pose t).last_pose = pose ∧ (s2.update pose t).last_t = t
      ∧ (s2.update pose t).count = s2.count + 1 ∧ (s2.update pose t).keep = 5)
    ∧ ((s3.refresh pose t).last_pose = pose ∧ (s3.refresh pose t).last_t = t
      ∧ (s3.refresh pose t).count = s3.count + 1 ∧ (s3.refresh pose t).keep = 5)
    ∧ ((s4.refresh pose t).last_pose = pose ∧ (s4.refresh pose t).last_t = t
      ∧ (s4.refresh pose t).count = s4.count + 1 ∧ (s4.refresh pose t).keep = 5) :=
  ⟨⟨rfl, rfl, rfl, rfl⟩, ⟨rfl, rfl, rfl, rfl⟩, ⟨rfl, rfl, rfl, rfl⟩⟩

/-- C8 (the code at the failing input): `TQstateV1::update` sets `last_pose` and `last_t`
as claimed, but adds two to `count`, not one; on a freshly constructed slot one update
leaves `count = 2`. -/
theorem TQstateV1_update_adds_two {Time T KF Std : Type} (s : TQstateV1 Time T KF Std)
    (now : Time) (pose0 : Fin 4 → T) (kf0 : KF) (std0 : Std) (pose : Fin 4 → T) (t : Time) :
    (s.update pose t).last_pose = pose ∧ (s.update pose t).last_t = t
    ∧ (s.update pose t).count = s.count + 2 ∧ (s.update pose t).count ≠ s.count + 1
    ∧ ((TQstateV1.ctor now pose0 kf0 std0).update pose t).count = 2 := by
  refine ⟨rfl, rfl, rfl, ?_, rfl⟩
  show s.count + 2 ≠ s.count + 1
  omega

/-- What the calls on a V1 slot preserve: `count` is not negative, and it is at least one
whenever `exist` or `available` is set. -/
theorem TQstateV1_run_inv {Time T KF Std : Type} (restart : KF → KF) (clearStd : Std → Std)
    (calls : List (TQcall Time T)) (s : TQstateV1 Time T KF Std)
    (h : 0 ≤ s.count ∧ (s.exist = true → 1 ≤ s.count) ∧ (s.available = true → 1 ≤ s.count)) :
    0 ≤ (TQstateV1.run restart clearStd s calls).count
    ∧ ((TQstateV1.run restart clearStd s calls).exist = true
        → 1 ≤ (TQstateV1.run restart clearStd s calls).count)
    ∧ ((TQstateV1.run restart clearStd s calls).available = true
        → 1 ≤ (TQstateV1.run restart clearStd s calls).count) := by
  induction calls generalizing s with
  | nil => exact h
  | cons c cs ih =>
    apply ih (TQstateV1.step restart clearStd s c)
    cases c with
    | clear => exact ⟨le_refl _, fun hf => (by cases hf), fun hf => (by cases hf)⟩
    | update pose t =>
      have h0 : 0 ≤ s.count := h.1
      have h1 : (s.update pose t).count = s.count + 2 := rfl
      refine ⟨?_, fun _ => ?_, fun _ => ?_⟩ <;>
      · show _ ≤ (s.update pose t).count
        omega

/-- What the calls on a V2 slot preserve: `count` is not negative, and it is at least one
whenever `exist` or `available` is set. -/
theorem TQstateV2_run_inv {Time T EKF Std : Type} (restart : EKF → EKF) (clearStd : Std → Std)
    (calls : List (TQcall Time T)) (s : TQstateV2 Time T EKF Std)
    (h : 0 ≤ s.count ∧ (s.exist = true → 1 ≤ s.count) ∧ (s.available = true → 1 ≤ s.count)) :
    0 ≤ (TQstateV2.run restart clearStd s calls).count
    ∧ ((TQstateV2.run restart clearStd s calls).exist = true
        → 1 ≤ (TQstateV2.run restart clearStd s calls).count)
    ∧ ((TQstateV2.run restart clearStd s calls).available = true
        → 1 ≤ (TQstateV2.run restart clearStd s calls).count) := by
  induction calls generalizing s with
  | nil => exact h
  | cons c cs ih =>
    apply ih (TQstateV2.step restart clearStd s c)
    cases c with
    | clear => exact ⟨le_refl _, fun hf => (by cases hf), fun hf => (by cases hf)⟩
    | update pose t =>
      have h0 : 0 ≤ s.count := h.1
      have h1 : (s.update pose t).count = s.count + 1 := rfl
      refine ⟨?_, fun _ => ?_, fun _ => ?_⟩ <;>
      · show _ ≤ (s.update pose t).count
        omega

/-- C9 (as stated) fails: one `update` on a freshly constructed slot sets `available`
while `count` is 2 (V1, minimum 5) or 1 (V2, minimum 10). -/
theorem TQstate_available_min_count_counterexample :
    ((TQstateV1.run (id : Unit → Unit) (id : Unit → Unit)
          (TQstateV1.ctor (0 : Nat) (fun _ => (0 : Int)) () ())
          [TQcall.update ![1, 0, 3, 0] 1]).available = true
      ∧ ¬ TrackQueueV1.min_count_ ≤ (TQstateV1.run (id : Unit → Unit) (id : Unit → Unit)
          (TQstateV1.ctor (0 : Nat) (fun _ => (0 : Int)) () ())
          [TQcall.update ![1, 0, 3, 0] 1]).count)
    ∧ ((TQstateV2.run (id : Unit → Unit) (id : Unit → Unit)
          (TQstateV2.ctor (0 : Nat) (fun _ => (0 : Int)) () ())
          [TQcall.update ![1, 0, 3, 0] 1]).available = true
      ∧ ¬ TrackQueueV2.count_ ≤ (TQstateV2.run (id : Unit → Unit) (id : Unit → Unit)
          (TQstateV2.ctor (0 : Nat) (fun _ => (0 : Int)) () ())
          [TQcall.update ![1, 0, 3, 0] 1]).count) := by
  refine ⟨⟨rfl, ?_⟩, ⟨rfl, ?_⟩⟩ <;> decide

/-- C9 (amended): in every slot state reachable from a freshly constructed `TQstateV1` or
`TQstateV2` slot by a sequence of `clear()` and `update(pose, t)` calls, `available = true`
implies `count ≥ 1`. -/
theorem TQstate_available_count_pos {Time T KF Std : Type} (restart : KF → KF)
    (clearStd : Std → Std) (now : Time) (pose0 : Fin 4 → T) (kf0 : KF) (std0 : Std)
    (calls : List (TQcall Time T)) :
    ((TQstateV1.run restart clearStd (TQstateV1.ctor now pose0 kf0 std0) calls).available = true
      → 1 ≤ (TQstateV1.run restart clearStd (TQstateV1.ctor now pose0 kf0 std0) calls).count)
    ∧ ((TQstateV2.run restart clearStd (TQstateV2.ctor now pose0 kf0 std0) calls).available
          = true
      → 1 ≤ (TQstateV2.run restart clearStd (TQstateV2.ctor now pose0 kf0 std0) calls).count) :=
  ⟨(TQstateV1_run_inv restart clearStd calls _
      ⟨le_refl _, fun hf => (by cases hf), fun hf => (by cases hf)⟩).2.2,
   (TQstateV2_run_inv restart clearStd calls _
      ⟨le_refl _, fun hf => (by cases hf), fun hf => (by cases hf)⟩).2.2⟩

/-- C9 (amended), at a concrete run: after `update, clear, update, update` both slots are
`available` and their `count` is at least one. -/
theorem TQstate_available_count_pos_witness :
    ((TQstateV1.run (id : Unit → Unit) (id : Unit → Unit)
          (TQstateV1.ctor (0 : Nat) (fun _ => (0 : Int)) () ())
          [.update ![1, 0, 3, 0] 1, .clear, .update ![1, 0, 3, 0] 2,
            .update ![1, 0, 3, 0] 3]).available = true
      ∧ 1 ≤ (TQstateV1.run (id : Unit → Unit) (id : Unit → Unit)
          (TQstateV1.ctor (0 : Nat) (fun _ => (0 : Int)) () ())
          [.update ![1, 0, 3, 0] 1, .clear, .update ![1, 0, 3, 0] 2,
            .update ![1, 0, 3, 0] 3]).count)
    ∧ ((TQstateV2.run (id : Unit → Unit) (id : Unit → Unit)
          (TQstateV2.ctor (0 : Nat) (fun _ => (0 : Int)) () ())
          [.update ![1, 0, 3, 0] 1, .clear, .update ![1, 0, 3, 0] 2,
            .update ![1, 0, 3, 0] 3]).available = true
      ∧ 1 ≤ (TQstateV2.run (id : Unit → Unit) (id : Unit → Unit)
          (TQstateV2.ctor (0 : Nat) (fun _ => (0 : Int)) () ())
          [.update ![1, 0, 3, 0] 1, .clear, .update ![1, 0, 3, 0] 2,
            .update ![1, 0, 3, 0] 3]).count) :=
  ⟨⟨rfl, (TQstate_available_count_pos id id 0 (fun _ => 0) () () _).1 rfl⟩,
   ⟨rfl, (TQstate_available_count_pos id id 0 (fun _ => 0) () () _).2 rfl⟩⟩

/-- C10: in every slot state reachable from a freshly constructed `TQstateV1` or `TQstateV2`
slot by a sequence of `clear()` and `update(pose, t)` calls, with `count` an unbounded
integer, `exist = true` implies `count ≥ 1`, and `count = 0` implies `exist = false`. -/
theorem TQstate_exist_count_pos {Time T KF Std : Type} (restart : KF → KF)
    (clearStd : Std → Std) (now : Time) (pose0 : Fin 4 → T) (kf0 : KF) (std0 : Std)
    (calls : List (TQcall Time T)) :
    (((TQstateV1.run restart clearStd (TQstateV1.ctor now pose0 kf0 std0) calls).exist = true
        → 1 ≤ (TQstateV1.run restart clearStd (TQstateV1.ctor now pose0 kf0 std0) calls).count)
      ∧ ((TQstateV1.run restart clearStd (TQstateV1.ctor now pose0 kf0 std0) calls).count = 0
        → (TQstateV1.run restart clearStd (TQstateV1.ctor now pose0 kf0 std0) calls).exist
            = false))
    ∧ (((TQstateV2.run restart clearStd (TQstateV2.ctor now pose0 kf0 std0) calls).exist = true
        → 1 ≤ (TQstateV2.run restart clearStd (TQstateV2.ctor now pose0 kf0 std0) calls).count)
      ∧ ((TQstateV2.run restart clearStd (TQstateV2.ctor now pose0 kf0 std0) calls).count = 0
        → (TQstateV2.run restart clearStd (TQstateV2.ctor now pose0 kf0 std0) calls).exist
            = false)) := by
  have h1 := (TQstateV1_run_inv restart clearStd calls (TQstateV1.ctor now pose0 kf0 std0)
      ⟨le_refl _, fun hf => (by cases hf), fun hf => (by cases hf)⟩).2.1
  have h2 := (TQstateV2_run_inv restart clearStd calls (TQstateV2.ctor now pose0 kf0 std0)
      ⟨le_refl _, fun hf => (by cases hf), fun hf => (by cases hf)⟩).2.1
  refine ⟨⟨h1, fun hc => ?_⟩, ⟨h2, fun hc => ?_⟩⟩
  · cases he : (TQstateV1.run restart clearStd (TQstateV1.ctor now pose0 kf0 std0) calls).exist
    · rfl
    · have := h1 he
      omega
  · cases he : (TQstateV2.run restart clearStd (TQstateV2.ctor now pose0 kf0 std0) calls).exist
    · rfl
    · have := h2 he
      omega

/-- C10, at concrete runs: after `update, clear, update` both slots have `exist` set and
`count ≥ 1`; after `update, clear` both have `count = 0` and `exist` clear. -/
theorem TQstate_exist_count_pos_witness :
    (((TQstateV1.run (id : Unit → Unit) (id : Unit → Unit)
          (TQstateV1.ctor (0 : Nat) (fun _ => (0 : Int)) () ())
          [.update ![1, 0, 3, 0] 1, .clear, .update ![1, 0, 3, 0] 2]).exist = true
        ∧ 1 ≤ (TQstateV1.run (id : Unit → Unit) (id : Unit → Unit)
          (TQstateV1.ctor (0 : Nat) (fun _ => (0 : Int)) () ())
          [.update ![1, 0, 3, 0] 1, .clear, .update ![1, 0, 3, 0] 2]).count)
      ∧ ((TQstateV1.run (id : Unit → Unit) (id : Unit → Unit)
          (TQstateV1.ctor (0 : Nat) (fun _ => (0 : Int)) () ())
          [.update ![1, 0, 3, 0] 1, .clear]).count = 0
        ∧ (TQstateV1.run (id : Unit → Unit) (id : Unit → Unit)
          (TQstateV1.ctor (0 : Nat) (fun _ => (0 : Int)) () ())
          [.update ![1, 0, 3, 0] 1, .clear]).exist = false))
    ∧ (((TQstateV2.run (id : Unit → Unit) (id : Unit → Unit)
          (TQstateV2.ctor (0 : Nat) (fun _ => (0 : Int)) () ())
          [.update ![1, 0, 3, 0] 1, .clear, .update ![1, 0, 3, 0] 2]).exist = true
        ∧ 1 ≤ (TQstateV2.run (id : Unit → Unit) (id : Unit → Unit)
          (TQstateV2.ctor (0 : Nat) (fun _ => (0 : Int)) () ())
          [.update ![1, 0, 3, 0] 1, .clear, .update ![1, 0, 3, 0] 2]).count)
      ∧ ((TQstateV2.run (id : Unit → Unit) (id : Unit → Unit)
          (TQstateV2.ctor (0 : Nat) (fun _ => (0 : Int)) () ())
          [.update ![1, 0, 3, 0] 1, .clear]).count = 0
        ∧ (TQstateV2.run (id : Unit → Unit) (id : Unit → Unit)
          (TQstateV2.ctor (0 : Nat) (fun _ => (0 : Int)) () ())
          [.update ![1, 0, 3, 0] 1, .clear]).exist = false)) :=
  ⟨⟨⟨rfl, (TQstate_exist_count_pos id id 0 (fun _ => 0) () () _).1.1 rfl⟩,
    ⟨rfl, (TQstate_exist_count_pos id id 0 (fun _ => 0) () () _).1.2 rfl⟩⟩,
   ⟨⟨rfl, (TQstate_exist_count_pos id id 0 (fun _ => 0) () () _).2.1 rfl⟩,
    ⟨rfl, (TQstate_exist_count_pos id id 0 (fun _ => 0) () () _).2.2 rfl⟩⟩⟩

/-- What the calls on a V2 slot preserve: once `keep` is 5 it stays 5. -/
theorem TQstateV2_run_keep {Time T EKF Std : Type} (restart : EKF → EKF) (clearStd : Std → Std)
    (calls : List (TQcall Time T)) (s : TQstateV2 Time T EKF Std) (h : s.keep = 5) :
    (TQstateV2.run restart clearStd s calls).keep = 5 := by
  induction calls generalizing s with
  | nil => exact h
  | cons c cs ih =>
    apply ih (TQstateV2.step restart clearStd s c)
    cases c <;> rfl

/-- What `refresh` calls on a V3 slot preserve: `count` is not negative and `keep` is 5. -/
theorem TQstateV3_run_inv {Time T EKF : Type} (calls : List ((Fin 4 → T) × Time))
    (s : TQstateV3 Time T EKF) (h : 0 ≤ s.count ∧ s.keep = 5) :
    0 ≤ (s.run calls).count ∧ (s.run calls).keep = 5 := by
  induction calls generalizing s with
  | nil => exact h
  | cons c cs ih =>
    apply ih (s.refresh c.1 c.2)
    have h0 : 0 ≤ s.count := h.1
    have h1 : (s.refresh c.1 c.2).count = s.count + 1 := rfl
    exact ⟨by omega, rfl⟩

/-- What `refresh` calls on a V4 slot preserve: `count` is not negative and `keep` is 5. -/
theorem TQstateV4_run_inv {Time T EKF : Type} (calls : List ((Fin 4 → T) × Time))
    (s : TQstateV4 Time T EKF) (h : 0 ≤ s.count ∧ s.keep = 5) :
    0 ≤ (s.run calls).count ∧ (s.run calls).keep = 5 := by
  induction calls generalizing s with
  | nil => exact h
  | cons c cs ih =>
    apply ih (s.refresh c.1 c.2)
    have h0 : 0 ≤ s.count := h.1
    have h1 : (s.refresh c.1 c.2).count = s.count + 1 := rfl
    exact ⟨by omega, rfl⟩

/-- C11: in every slot state reachable from a freshly constructed `TQstateV2`, `TQstateV3`
or `TQstateV4` slot by a sequence of the slot operations of the headers (`clear` and
`update` for V2, `refresh` for V3 and V4), `count ≥ 0` and `0 ≤ keep ≤ 5`. -/
theorem TQstate_count_keep_bounds {Time T EKF Std : Type} (restart : EKF → EKF)
    (clearStd : Std → Std) (now : Time) (pose0 : Fin 4 → T) (ekf0 : EKF) (std0 : Std)
    (calls2 : List (TQcall Time T)) (calls : List ((Fin 4 → T) × Time)) :
    (0 ≤ (TQstateV2.run restart clearStd (TQstateV2.ctor now pose0 ekf0 std0) calls2).count
      ∧ 0 ≤ (TQstateV2.run restart clearStd (TQstateV2.ctor now pose0 ekf0 std0) calls2).keep
      ∧ (TQstateV2.run restart clearStd (TQstateV2.ctor now pose0 ekf0 std0) calls2).keep ≤ 5)
    ∧ (0 ≤ ((TQstateV3.ctor now pose0 ekf0).run calls).count
      ∧ 0 ≤ ((TQstateV3.ctor now pose0 ekf0).run calls).keep
      ∧ ((TQstateV3.ctor now pose0 ekf0).run calls).keep ≤ 5)
    ∧ (0 ≤ ((TQstateV4.ctor now pose0 ekf0).run calls).count
      ∧ 0 ≤ ((TQstateV4.ctor now pose0 ekf0).run calls).keep
      ∧ ((TQstateV4.ctor now pose0 ekf0).run calls).keep ≤ 5) := by
  have c2 := (TQstateV2_run_inv restart clearStd calls2 (TQstateV2.ctor now pose0 ekf0 std0)
      ⟨le_refl _, fun hf => (by cases hf), fun hf => (by cases hf)⟩).1
  have k2 := TQstateV2_run_keep restart clearStd calls2 (TQstateV2.ctor now pose0 ekf0 std0) rfl
  have h3 := TQstateV3_run_inv calls (TQstateV3.ctor now pose0 ekf0) ⟨le_refl _, rfl⟩
  have h4 := TQstateV4_run_inv calls (TQstateV4.ctor now pose0 ekf0) ⟨le_refl _, rfl⟩
  refine ⟨⟨c2, ?_, ?_⟩, ⟨h3.1, ?_, ?_⟩, ⟨h4.1, ?_, ?_⟩⟩
  · rw [k2]; decide
  · rw [k2]
  · rw [h3.2]; decide
  · rw [h3.2]
  · rw [h4.2]; decide
  · rw [h4.2]

/-- C12: for every slot state `s`, the fields `count`, `exist`, `available` (and `keep` for
V2) after `s.clear()` equal those of a newly constructed `TQstateV1` / `TQstateV2` slot. -/
theorem TQstate_clear_eq_ctor {Time T KF Std : Type} (restart : KF → KF)
    (clearStd : Std → Std) (s1 : TQstateV1 Time T KF Std) (s2 : TQstateV2 Time T KF Std)
    (now : Time) (pose0 : Fin 4 → T) (kf0 : KF) (std0 : Std) :
    ((s1.clear restart clearStd).count = (TQstateV1.ctor now pose0 kf0 std0).count
      ∧ (s1.clear restart clearStd).exist = (TQstateV1.ctor now pose0 kf0 std0).exist
      ∧ (s1.clear restart clearStd).available = (TQstateV1.ctor now pose0 kf0 std0).available)
    ∧ ((s2.clear restart clearStd).count = (TQstateV2.ctor now pose0 kf0 std0).count
      ∧ (s2.clear restart clearStd).keep = (TQstateV2.ctor now pose0 kf0 std0).keep
      ∧ (s2.clear restart clearStd).exist = (TQstateV2.ctor now pose0 kf0 std0).exist
      ∧ (s2.clear restart clearStd).available = (TQstateV2.ctor now pose0 kf0 std0).available) :=
  ⟨⟨rfl, rfl, rfl⟩, ⟨rfl, rfl, rfl, rfl⟩⟩

/-- C13 (as stated) fails: `clear()` on a freshly constructed `TQstateV2` slot leaves
`keep = 5`, not 0. -/
theorem TQstateV2_clear_keep_counterexample :
    (TQstateV2.clear (id : Unit → Unit) (id : Unit → Unit)
        (TQstateV2.ctor (0 : Nat) (fun _ => (0 : Int)) () ())).keep = 5
    ∧ (TQstateV2.clear (id : Unit → Unit) (id : Unit → Unit)
        (TQstateV2.ctor (0 : Nat) (fun _ => (0 : Int)) () ())).keep ≠ 0 := by
  refine ⟨rfl, ?_⟩
  decide

/-- C13 (amended): for every `TQstateV2` slot state, after `clear()` the update count is 0,
`exist` and `available` are false, and the keep count is back at 5, its value in a newly
constructed slot. -/
theorem TQstateV2_clear_fields {Time T EKF Std : Type} (restart : EKF → EKF)
    (clearStd : Std → Std) (s : TQstateV2 Time T EKF Std) :
    (s.clear restart clearStd).count = 0 ∧ (s.clear restart clearStd).keep = 5
    ∧ (s.clear restart clearStd).exist = false ∧ (s.clear restart clearStd).available = false :=
  ⟨rfl, rfl, rfl, rfl⟩

/-- C14: `TrackQueueV2_FuncH` and `TrackQueueV3_FuncH` return the first four components
`(x, y, z, θ)` of every 11-state, and `TrackQueueV4_FuncH` the first three components
`(x, y, z)` of every 8-state `(x, y, z, v, vz, θ, ω, a)`, whatever the other components
are and whatever the output array held before. -/
theorem TrackQueue_FuncH_projection {T : Type} (x y z θ vx vy vz ω ax ay b : T)
    (v4 vz4 θ4 ω4 a4 v5 vz5 θ5 ω5 a5 : T) (y0 : Fin 4 → T) (y1 : Fin 3 → T) :
    TrackQueueV2_FuncH ![x, y, z, θ, vx, vy, vz, ω, ax, ay, b] y0 = ![x, y, z, θ]
    ∧ TrackQueueV3_FuncH ![x, y, z, θ, vx, vy, vz, ω, ax, ay, b] y0 = ![x, y, z, θ]
    ∧ TrackQueueV4_FuncH ![x, y, z, v4, vz4, θ4, ω4, a4] y1 = ![x, y, z]
    ∧ TrackQueueV4_FuncH ![x, y, z, v4, vz4, θ4, ω4, a4] y1
        = TrackQueueV4_FuncH ![x, y, z, v5, vz5, θ5, ω5, a5] y1 := by
  have h4 : ∀ v vz θ ω a : T, TrackQueueV4_FuncH ![x, y, z, v, vz, θ, ω, a] y1 = ![x, y, z] := by
    intro v vz θ ω a
    funext i
    fin_cases i <;> rfl
  refine ⟨?_, ?_, h4 _ _ _ _ _, (h4 _ _ _ _ _).trans (h4 _ _ _ _ _).symm⟩ <;>
  · funext i
    fin_cases i <;> rfl

/-- C15: for the V1 linear model with state `(x, y, z, θ, vx, vy)` and every `dt`, the matrix
`A` built by `TrackQueueV1_FuncA` satisfies `A·s = (x + dt·vx, y + dt·vy, z, θ, vx, vy)` and
the matrix `H` built by `TrackQueueV1_FuncH` satisfies `H·s = (x, y, z, θ)`, whatever the
matrices held before. -/
theorem TrackQueueV1_linear_model (dt x y z θ vx vy : ℝ) (A0 : Matrix (Fin 6) (Fin 6) ℝ)
    (H0 : Matrix (Fin 4) (Fin 6) ℝ) :
    (TrackQueueV1_FuncA.call ⟨dt⟩ A0).mulVec ![x, y, z, θ, vx, vy]
        = ![x + dt * vx, y + dt * vy, z, θ, vx, vy]
    ∧ (TrackQueueV1_FuncH H0).mulVec ![x, y, z, θ, vx, vy] = ![x, y, z, θ] := by
  constructor
  · funext i
    rw [Matrix.mulVec, Matrix.dotProduct, Fin.sum_univ_six]
    fin_cases i
    · show (1 : ℝ) * x + 0 * y + 0 * z + 0 * θ + dt * vx + 0 * vy = x + dt * vx
      ring
    · show (0 : ℝ) * x + 1 * y + 0 * z + 0 * θ + 0 * vx + dt * vy = y + dt * vy
      ring
    · show (0 : ℝ) * x + 0 * y + 1 * z + 0 * θ + 0 * vx + 0 * vy = z
      ring
    · show (0 : ℝ) * x + 0 * y + 0 * z + 1 * θ + 0 * vx + 0 * vy = θ
      ring
    · show (0 : ℝ) * x + 0 * y + 0 * z + 0 * θ + 1 * vx + 0 * vy = vx
      ring
    · show (0 : ℝ) * x + 0 * y + 0 * z + 0 * θ + 0 * vx + 1 * vy = vy
      ring
  · funext i
    rw [Matrix.mulVec, Matrix.dotProduct, Fin.sum_univ_six]
    fin_cases i
    · show (1 : ℝ) * x + 0 * y + 0 * z + 0 * θ + 0 * vx + 0 * vy = x
      ring
    · show (0 : ℝ) * x + 1 * y + 0 * z + 0 * θ + 0 * vx + 0 * vy = y
      ring
    · show (0 : ℝ) * x + 0 * y + 1 * z + 0 * θ + 0 * vx + 0 * vy = z
      ring
    · show (0 : ℝ) * x + 0 * y + 0 * z + 1 * θ + 0 * vx + 0 * vy = θ
      ring

/-- C16 (the code at the failing input): the matrix `A` built by `AntitopV3_OmegaFuncA`
satisfies `A·(θ, ω, α) = (θ + ω·dt + α·dt², ω + α·dt, α)`, the `α` term of the angle without
the factor ½, and `AntitopV3_OmegaFuncH` observes `θ` only; at `dt = 1` and state `(0, 0, 1)`
the predicted angle is `1`, not `½`. -/
theorem AntitopV3_Omega_model (dt θ ω α : ℝ) (A0 : Matrix (Fin 3) (Fin 3) ℝ)
    (H0 : Matrix (Fin 1) (Fin 3) ℝ) :
    (AntitopV3_OmegaFuncA.call ⟨dt⟩ A0).mulVec ![θ, ω, α]
        = ![θ + ω * dt + α * dt ^ 2, ω + α * dt, α]
    ∧ (AntitopV3_OmegaFuncH H0).mulVec ![θ, ω, α] = ![θ]
    ∧ (AntitopV3_OmegaFuncA.call ⟨(1 : ℝ)⟩ A0).mulVec ![0, 0, 1] 0 = 1
    ∧ (AntitopV3_OmegaFuncA.call ⟨(1 : ℝ)⟩ A0).mulVec ![0, 0, 1] 0
        ≠ 0 + 0 * 1 + 1 / 2 * 1 * 1 ^ 2 := by
  have hA : ∀ (d a b c : ℝ), (AntitopV3_OmegaFuncA.call ⟨d⟩ A0).mulVec ![a, b, c]
      = ![a + b * d + c * d ^ 2, b + c * d, c] := by
    intro d a b c
    funext i
    rw [Matrix.mulVec, Matrix.dotProduct, Fin.sum_univ_three]
    fin_cases i
    · show (1 : ℝ) * a + d * b + d * d * c = a + b * d + c * d ^ 2
      ring
    · show (0 : ℝ) * a + 1 * b + d * c = b + c * d
      ring
    · show (0 : ℝ) * a + 0 * b + 1 * c = c
      ring
  have h1 : (AntitopV3_OmegaFuncA.call ⟨(1 : ℝ)⟩ A0).mulVec ![0, 0, 1] 0 = 1 := by
    rw [hA]
    show (0 : ℝ) + 0 * 1 + 1 * 1 ^ 2 = 1
    norm_num
  refine ⟨hA dt θ ω α, ?_, h1, ?_⟩
  · funext i
    rw [Matrix.mulVec, Matrix.dotProduct, Fin.sum_univ_three]
    fin_cases i
    show (1 : ℝ) * θ + 0 * ω + 0 * α = θ
    ring
  · rw [h1]
    norm_num

/-- What `setRadiusRange` calls preserve: the stored radii. -/
theorem AntitopV3_run_radii {T : Type} (calls : List (T × T)) (s : AntitopV3 T) :
    (s.run calls).r_ = s.r_ := by
  induction calls generalizing s with
  | nil => rfl
  | cons c cs ih => exact ih (s.setRadiusRange c.1 c.2)

/-- C17 (as stated) fails: after `setRadiusRange(0.3, 0.4)` on the default members, both
stored radii are still `0.25`, below `r_min = 0.3`. -/
theorem AntitopV3_radius_range_counterexample :
    ((AntitopV3.init : AntitopV3 ℝ).run [(0.3, 0.4)]).r_ 0 = 0.25
    ∧ ((AntitopV3.init : AntitopV3 ℝ).run [(0.3, 0.4)]).r_ 1 = 0.25
    ∧ ((AntitopV3.init : AntitopV3 ℝ).run [(0.3, 0.4)]).r_min_ = 0.3
    ∧ ¬ ((AntitopV3.init : AntitopV3 ℝ).run [(0.3, 0.4)]).r_min_
        ≤ ((AntitopV3.init : AntitopV3 ℝ).run [(0.3, 0.4)]).r_ 0
    ∧ ¬ ((AntitopV3.init : AntitopV3 ℝ).run [(0.3, 0.4)]).r_min_
        ≤ ((AntitopV3.init : AntitopV3 ℝ).run [(0.3, 0.4)]).r_ 1 := by
  have h0 : ((AntitopV3.init : AntitopV3 ℝ).run [(0.3, 0.4)]).r_ 0 = 0.25 := rfl
  have h1 : ((AntitopV3.init : AntitopV3 ℝ).run [(0.3, 0.4)]).r_ 1 = 0.25 := rfl
  have hm : ((AntitopV3.init : AntitopV3 ℝ).run [(0.3, 0.4)]).r_min_ = 0.3 := rfl
  refine ⟨h0, h1, hm, ?_, ?_⟩
  · rw [hm, h0]; norm_num
  · rw [hm, h1]; norm_num

/-- C17 (amended): in every `AntitopV3` configuration reachable from the default member
values by a sequence of `setRadiusRange(r_min, r_max)` calls, both stored radii keep their
default value `0.25`, and they lie within `[r_min, r_max]` provided the range given by the
last call, if there was one, contains `0.25`. -/
theorem AntitopV3_radii_in_range (calls : List (ℝ × ℝ))
    (h : ∀ cs c, calls = cs ++ [c] → c.1 ≤ 0.25 ∧ 0.25 ≤ c.2) :
    ((AntitopV3.init : AntitopV3 ℝ).run calls).r_ 0 = 0.25
    ∧ ((AntitopV3.init : AntitopV3 ℝ).run calls).r_ 1 = 0.25
    ∧ (((AntitopV3.init : AntitopV3 ℝ).run calls).r_min_
          ≤ ((AntitopV3.init : AntitopV3 ℝ).run calls).r_ 0
      ∧ ((AntitopV3.init : AntitopV3 ℝ).run calls).r_ 0
          ≤ ((AntitopV3.init : AntitopV3 ℝ).run calls).r_max_)
    ∧ (((AntitopV3.init : AntitopV3 ℝ).run calls).r_min_
          ≤ ((AntitopV3.init : AntitopV3 ℝ).run calls).r_ 1
      ∧ ((AntitopV3.init : AntitopV3 ℝ).run calls).r_ 1
          ≤ ((AntitopV3.init : AntitopV3 ℝ).run calls).r_max_) := by
  have hr := AntitopV3_run_radii calls (AntitopV3.init : AntitopV3 ℝ)
  have h0 : ((AntitopV3.init : AntitopV3 ℝ).run calls).r_ 0 = 0.25 := by rw [hr]; rfl
  have h1 : ((AntitopV3.init : AntitopV3 ℝ).run calls).r_ 1 = 0.25 := by rw [hr]; rfl
  have hrange : ((AntitopV3.init : AntitopV3 ℝ).run calls).r_min_ ≤ 0.25
      ∧ (0.25 : ℝ) ≤ ((AntitopV3.init : AntitopV3 ℝ).run calls).r_max_ := by
    rcases List.eq_nil_or_concat calls with hnil | ⟨cs, c, hc⟩
    · subst hnil
      have e1 : ((AntitopV3.init : AntitopV3 ℝ).run []).r_min_ = 0.15 := rfl
      have e2 : ((AntitopV3.init : AntitopV3 ℝ).run []).r_max_ = 0.4 := rfl
      rw [e1, e2]
      constructor <;> norm_num
    · rw [List.concat_eq_append] at hc
      have hlast := h cs c hc
      subst hc
      have e1 : ((AntitopV3.init : AntitopV3 ℝ).run (cs ++ [c])).r_min_ = c.1 := by
        simp [AntitopV3.run, List.foldl_append, AntitopV3.setRadiusRange]
      have e2 : ((AntitopV3.init : AntitopV3 ℝ).run (cs ++ [c])).r_max_ = c.2 := by
        simp [AntitopV3.run, List.foldl_append, AntitopV3.setRadiusRange]
      rw [e1, e2]
      exact hlast
  rw [h0, h1]
  exact ⟨rfl, rfl, hrange, hrange⟩

/-- C17 (amended), at a concrete run: after `setRadiusRange(0.3, 0.4)` and then
`setRadiusRange(0.2, 0.3)` the last range contains `0.25` and both radii lie within it. -/
theorem AntitopV3_radii_in_range_witness :
    (∀ cs c, [((0.3 : ℝ), (0.4 : ℝ)), (0.2, 0.3)] = cs ++ [c] → c.1 ≤ 0.25 ∧ 0.25 ≤ c.2)
    ∧ ((AntitopV3.init : AntitopV3 ℝ).run [(0.3, 0.4), (0.2, 0.3)]).r_min_
        ≤ ((AntitopV3.init : AntitopV3 ℝ).run [(0.3, 0.4), (0.2, 0.3)]).r_ 0
    ∧ ((AntitopV3.init : AntitopV3 ℝ).run [(0.3, 0.4), (0.2, 0.3)]).r_ 0
        ≤ ((AntitopV3.init : AntitopV3 ℝ).run [(0.3, 0.4), (0.2, 0.3)]).r_max_ := by
  have hyp : ∀ cs c, [((0.3 : ℝ), (0.4 : ℝ)), (0.2, 0.3)] = cs ++ [c]
      → c.1 ≤ 0.25 ∧ 0.25 ≤ c.2 := by
    intro cs c hc
    have hl := congrArg List.getLast? hc
    simp at hl
    subst hl
    constructor <;> norm_num
  exact ⟨hyp, (AntitopV3_radii_in_range _ hyp).2.2.1⟩

/-- C18: the rune constants of `runeV1.h` and `runeV2.h` are `A_MIN = 0.780`,
`A_MAX = 1.045`, `W_MIN = 1.884`, `W_MAX = 2.000`, `B_BASE = 2.090`, `R = 0.69852` and
`SMALL_RUNE_SPD = π/3`; `A_MIN ≤ A_MAX` and `W_MIN ≤ W_MAX`; and the base speed literal in
both big-rune transitions equals `B_BASE`. -/
theorem rune_constants (dt sign : ℝ) (x0 x1 : Fin 8 → ℝ) :
    (A_MIN : ℝ) = 0.780 ∧ (A_MAX : ℝ) = 1.045 ∧ (W_MIN : ℝ) = 1.884 ∧ (W_MAX : ℝ) = 2.000
    ∧ (B_BASE : ℝ) = 2.090 ∧ (R : ℝ) = 0.69852 ∧ SMALL_RUNE_SPD Real.pi = Real.pi / 3
    ∧ (A_MIN : ℝ) ≤ A_MAX ∧ (W_MIN : ℝ) ≤ W_MAX
    ∧ BigRuneV1_FuncA.call Real.sin ⟨dt, sign⟩ x0 x1 4
        = x0 4 + sign * dt * (B_BASE - x0 6) + sign * x0 6 * Real.sin (x0 5) * dt
    ∧ BigRuneV2_FuncA.call Real.sin ⟨dt, sign⟩ x0 x1 4
        = x0 4 + sign * dt * (B_BASE - x0 6) + sign * x0 6 * Real.sin (x0 5) * dt := by
  refine ⟨rfl, rfl, rfl, rfl, rfl, rfl, rfl, ?_, ?_, rfl, rfl⟩
  · simp only [A_MIN, A_MAX]; norm_num
  · simp only [W_MIN, W_MAX]; norm_num

/-- The window of `getSafeSub`: for a positive `pi` the value lies in `[−pi, pi)`. -/
theorem getSafeSub_window {T : Type} [LinearOrderedField T] [FloorRing T] (pi a b : T)
    (hpi : 0 < pi) : -pi ≤ getSafeSub pi a b ∧ getSafeSub pi a b < pi := by
  unfold getSafeSub
  have h2 : (0 : T) < 2 * pi := by linarith
  have h1 := Int.floor_le ((a - b + pi) / (2 * pi))
  have h3 := Int.lt_floor_add_one ((a - b + pi) / (2 * pi))
  rw [le_div_iff₀ h2] at h1
  rw [div_lt_iff₀ h2] at h3
  constructor <;> linarith

/-- The model of `getAngleTrans` meets the words of the spec: among all representatives
`raw + k·2π` of `raw`, the returned one is nearest to `ref`. -/
theorem getAngleTrans_nearest (ref raw : ℝ) (k : ℤ) :
    |getAngleTrans Real.pi ref raw - ref| ≤ |raw + k * (2 * Real.pi) - ref| := by
  have hpi := Real.pi_pos
  have hw := getSafeSub_window Real.pi raw ref hpi
  have he : getAngleTrans Real.pi ref raw - ref = getSafeSub Real.pi raw ref := by
    unfold getAngleTrans getSafeSub
    ring
  have hk : raw + k * (2 * Real.pi) - ref = getSafeSub Real.pi raw ref
      + ((k + ⌊(raw - ref + Real.pi) / (2 * Real.pi)⌋ : ℤ) : ℝ) * (2 * Real.pi) := by
    unfold getSafeSub
    push_cast
    ring
  rw [he, hk]
  have habs : |getSafeSub Real.pi raw ref| ≤ Real.pi := abs_le.mpr ⟨hw.1, le_of_lt hw.2⟩
  rcases lt_trichotomy (k + ⌊(raw - ref + Real.pi) / (2 * Real.pi)⌋) 0 with hm | hm | hm
  · have hm1 : ((k + ⌊(raw - ref + Real.pi) / (2 * Real.pi)⌋ : ℤ) : ℝ) ≤ -1 := by
      exact_mod_cast Int.le_sub_one_of_lt hm
    have hprod : ((k + ⌊(raw - ref + Real.pi) / (2 * Real.pi)⌋ : ℤ) : ℝ) * (2 * Real.pi)
        ≤ -1 * (2 * Real.pi) := mul_le_mul_of_nonneg_right hm1 (by linarith)
    refine le_trans habs ?_
    rw [abs_of_nonpos (by linarith)]
    linarith
  · rw [hm]
    simp
  · have hm1 : (1 : ℝ) ≤ ((k + ⌊(raw - ref + Real.pi) / (2 * Real.pi)⌋ : ℤ) : ℝ) := by
      exact_mod_cast Int.add_one_le_of_lt hm
    have hprod : 1 * (2 * Real.pi)
        ≤ ((k + ⌊(raw - ref + Real.pi) / (2 * Real.pi)⌋ : ℤ) : ℝ) * (2 * Real.pi) :=
      mul_le_mul_of_nonneg_right hm1 (by linarith)
    refine le_trans habs ?_
    rw [abs_of_nonneg (by linarith)]
    linarith

/-- C19: for all real `ref` and `raw`, the angle-alignment helper `getAngleTrans(ref, raw)`
returns `r` with `r − ref ∈ [−π, π]` and `r ≡ raw (mod 2π)`, that is `r = raw + k·2π` for an
integer `k`. -/
theorem getAngleTrans_aligned (ref raw : ℝ) :
    -Real.pi ≤ getAngleTrans Real.pi ref raw - ref
    ∧ getAngleTrans Real.pi ref raw - ref ≤ Real.pi
    ∧ ∃ k : ℤ, getAngleTrans Real.pi ref raw = raw + k * (2 * Real.pi) := by
  have hw := getSafeSub_window Real.pi raw ref Real.pi_pos
  have he : getAngleTrans Real.pi ref raw - ref = getSafeSub Real.pi raw ref := by
    unfold getAngleTrans getSafeSub
    ring
  rw [he]
  refine ⟨hw.1, le_of_lt hw.2, -⌊(raw - ref + Real.pi) / (2 * Real.pi)⌋, ?_⟩
  unfold getAngleTrans
  push_cast
  ring

/-- C20: for all angles `a` and `b`, `getSafeSub(a, b)` lies in `[−π, π]`, and away from the
π discontinuity, that is when `a − b` is not an odd multiple of π, it is antisymmetric:
`getSafeSub(a, b) = −getSafeSub(b, a)`. -/
theorem getSafeSub_antisymm (a b : ℝ) (h : ∀ k : ℤ, a - b ≠ (2 * k + 1) * Real.pi) :
    (-Real.pi ≤ getSafeSub Real.pi a b ∧ getSafeSub Real.pi a b ≤ Real.pi)
    ∧ getSafeSub Real.pi a b = -getSafeSub Real.pi b a := by
  have hpi := Real.pi_pos
  have h2 : (0 : ℝ) < 2 * Real.pi := by linarith
  have hw := getSafeSub_window Real.pi a b hpi
  refine ⟨⟨hw.1, le_of_lt hw.2⟩, ?_⟩
  have h1 := Int.floor_le ((a - b + Real.pi) / (2 * Real.pi))
  have h3 := Int.lt_floor_add_one ((a - b + Real.pi) / (2 * Real.pi))
  rw [le_div_iff₀ h2] at h1
  rw [div_lt_iff₀ h2] at h3
  have hne : (⌊(a - b + Real.pi) / (2 * Real.pi)⌋ : ℝ) * (2 * Real.pi) ≠ a - b + Real.pi := by
    intro heq
    apply h (⌊(a - b + Real.pi) / (2 * Real.pi)⌋ - 1)
    push_cast
    linarith
  have hlt : (⌊(a - b + Real.pi) / (2 * Real.pi)⌋ : ℝ) * (2 * Real.pi) < a - b + Real.pi :=
    lt_of_le_of_ne h1 hne
  have hfl : ⌊(b - a + Real.pi) / (2 * Real.pi)⌋ = -⌊(a - b + Real.pi) / (2 * Real.pi)⌋ := by
    rw [Int.floor_eq_iff, le_div_iff₀ h2, div_lt_iff₀ h2]
    push_cast
    constructor <;> linarith
  unfold getSafeSub
  rw [hfl]
  push_cast
  ring

/-- C20, at a concrete input: `a = π/2`, `b = 0` is away from the discontinuity, and there
`getSafeSub(π/2, 0) = −getSafeSub(0, π/2)`, both within `[−π, π]`. -/
theorem getSafeSub_antisymm_witness :
    (∀ k : ℤ, Real.pi / 2 - 0 ≠ (2 * k + 1) * Real.pi)
    ∧ (-Real.pi ≤ getSafeSub Real.pi (Real.pi / 2) 0
      ∧ getSafeSub Real.pi (Real.pi / 2) 0 ≤ Real.pi)
    ∧ getSafeSub Real.pi (Real.pi / 2) 0 = -getSafeSub Real.pi 0 (Real.pi / 2) := by
  have hyp : ∀ k : ℤ, Real.pi / 2 - 0 ≠ (2 * k + 1) * Real.pi := by
    intro k hk
    have hpi := Real.pi_pos
    have hz : Real.pi * (4 * (k : ℝ) + 1) = 0 := by linarith
    rcases mul_eq_zero.mp hz with h0 | h0
    · linarith
    · have hint : (4 * k + 1 : ℤ) = 0 := by exact_mod_cast h0
      omega
  exact ⟨hyp, getSafeSub_antisymm (Real.pi / 2) 0 hyp⟩

/-- The result of `TrackQueueV2_FuncA` and `TrackQueueV3_FuncA`, as the code writes it: ten
assigned components, and the previous content of the output array in the last place. -/
theorem TrackQueueV23_FuncA_code (dt x y z θ vx vy vz ω ax ay b : ℝ) (y0 : Fin 11 → ℝ) :
    TrackQueueV2_FuncA.call ⟨dt⟩ ![x, y, z, θ, vx, vy, vz, ω, ax, ay, b] y0
        = ![x + dt * vx + 0.5 * ax * dt * dt, y + dt * vy + 0.5 * ay * dt * dt, z + dt * vz,
            θ + dt * ω + 0.5 * b * dt * dt, vx + dt * ax, vy + dt * ay, vz, ω + dt * b,
            ax, ay, y0 10]
    ∧ TrackQueueV3_FuncA.call ⟨dt⟩ ![x, y, z, θ, vx, vy, vz, ω, ax, ay, b] y0
        = ![x + dt * vx + 0.5 * ax * dt * dt, y + dt * vy + 0.5 * ay * dt * dt, z + dt * vz,
            θ + dt * ω + 0.5 * b * dt * dt, vx + dt * ax, vy + dt * ay, vz, ω + dt * b,
            ax, ay, y0 10] := by
  refine ⟨?_, ?_⟩ <;>
  · funext i
    fin_cases i <;> rfl

/-- C21: for every 11-state `(x, y, z, θ, vx, vy, vz, ω, ax, ay, αθ)` and every `dt`,
`TrackQueueV2_FuncA` and `TrackQueueV3_FuncA` compute the same constant-acceleration step on
components 0–9: `x + dt·vx + ½·ax·dt²`, `y + dt·vy + ½·ay·dt²`, `z + dt·vz`,
`θ + dt·ω + ½·αθ·dt²`, `vx + dt·ax`, `vy + dt·ay`, `vz`, `ω + dt·αθ`, `ax`, `ay`. -/
theorem TrackQueueV23_FuncA_step (dt x y z θ vx vy vz ω ax ay b : ℝ) (y0 : Fin 11 → ℝ) :
    (TrackQueueV2_FuncA.call ⟨dt⟩ ![x, y, z, θ, vx, vy, vz, ω, ax, ay, b] y0 0
          = x + dt * vx + 1 / 2 * ax * dt ^ 2
      ∧ TrackQueueV2_FuncA.call ⟨dt⟩ ![x, y, z, θ, vx, vy, vz, ω, ax, ay, b] y0 1
          = y + dt * vy + 1 / 2 * ay * dt ^ 2
      ∧ TrackQueueV2_FuncA.call ⟨dt⟩ ![x, y, z, θ, vx, vy, vz, ω, ax, ay, b] y0 2
          = z + dt * vz
      ∧ TrackQueueV2_FuncA.call ⟨dt⟩ ![x, y, z, θ, vx, vy, vz, ω, ax, ay, b] y0 3
          = θ + dt * ω + 1 / 2 * b * dt ^ 2
      ∧ TrackQueueV2_FuncA.call ⟨dt⟩ ![x, y, z, θ, vx, vy, vz, ω, ax, ay, b] y0 4
          = vx + dt * ax
      ∧ TrackQueueV2_FuncA.call ⟨dt⟩ ![x, y, z, θ, vx, vy, vz, ω, ax, ay, b] y0 5
          = vy + dt * ay
      ∧ TrackQueueV2_FuncA.call ⟨dt⟩ ![x, y, z, θ, vx, vy, vz, ω, ax, ay, b] y0 6
          = vz
      ∧ TrackQueueV2_FuncA.call ⟨dt⟩ ![x, y, z, θ, vx, vy, vz, ω, ax, ay, b] y0 7
          = ω + dt * b
      ∧ TrackQueueV2_FuncA.call ⟨dt⟩ ![x, y, z, θ, vx, vy, vz, ω, ax, ay, b] y0 8
          = ax
      ∧ TrackQueueV2_FuncA.call ⟨dt⟩ ![x, y, z, θ, vx, vy, vz, ω, ax, ay, b] y0 9
          = ay)
    ∧ (TrackQueueV3_FuncA.call ⟨dt⟩ ![x, y, z, θ, vx, vy, vz, ω, ax, ay, b] y0 0
          = x + dt * vx + 1 / 2 * ax * dt ^ 2
      ∧ TrackQueueV3_FuncA.call ⟨dt⟩ ![x, y, z, θ, vx, vy, vz, ω, ax, ay, b] y0 1
          = y + dt * vy + 1 / 2 * ay * dt ^ 2
      ∧ TrackQueueV3_FuncA.call ⟨dt⟩ ![x, y, z, θ, vx, vy, vz, ω, ax, ay, b] y0 2
          = z + dt * vz
      ∧ TrackQueueV3_FuncA.call ⟨dt⟩ ![x, y, z, θ, vx, vy, vz, ω, ax, ay, b] y0 3
          = θ + dt * ω + 1 / 2 * b * dt ^ 2
      ∧ TrackQueueV3_FuncA.call ⟨dt⟩ ![x, y, z, θ, vx, vy, vz, ω, ax, ay, b] y0 4
          = vx + dt * ax
      ∧ TrackQueueV3_FuncA.call ⟨dt⟩ ![x, y, z, θ, vx, vy, vz, ω, ax, ay, b] y0 5
          = vy + dt * ay
      ∧ TrackQueueV3_FuncA.call ⟨dt⟩ ![x, y, z, θ, vx, vy, vz, ω, ax, ay, b] y0 6
          = vz
      ∧ TrackQueueV3_FuncA.call ⟨dt⟩ ![x, y, z, θ, vx, vy, vz, ω, ax, ay, b] y0 7
          = ω + dt * b
      ∧ TrackQueueV3_FuncA.call ⟨dt⟩ ![x, y, z, θ, vx, vy, vz, ω, ax, ay, b] y0 8
          = ax
      ∧ TrackQueueV3_FuncA.call ⟨dt⟩ ![x, y, z, θ, vx, vy, vz, ω, ax, ay, b] y0 9
          = ay) := by
  have hc := TrackQueueV23_FuncA_code dt x y z θ vx vy vz ω ax ay b y0
  have e0 : x + dt * vx + 0.5 * ax * dt * dt = x + dt * vx + 1 / 2 * ax * dt ^ 2 := by
    norm_num; ring
  have e1 : y + dt * vy + 0.5 * ay * dt * dt = y + dt * vy + 1 / 2 * ay * dt ^ 2 := by
    norm_num; ring
  have e3 : θ + dt * ω + 0.5 * b * dt * dt = θ + dt * ω + 1 / 2 * b * dt ^ 2 := by
    norm_num; ring
  rw [e0, e1, e3] at hc
  rw [hc.1, hc.2]
  exact ⟨⟨rfl, rfl, rfl, rfl, rfl, rfl, rfl, rfl, rfl, rfl⟩,
    ⟨rfl, rfl, rfl, rfl, rfl, rfl, rfl, rfl, rfl, rfl⟩⟩

/-- C22 (the code at the failing input): `TrackQueueV2_FuncA` and `TrackQueueV3_FuncA` never
write `x1[10]`: after the call it holds what the output array held before, not `x0[10]`.
With `x0 = (0, …, 0, 1)` and an output array of zeros, `x1[10]` is `0` after the call. -/
theorem TrackQueueV23_FuncA_last_component (dt : ℝ) (x0 x1 : Fin 11 → ℝ) :
    TrackQueueV2_FuncA.call ⟨dt⟩ x0 x1 10 = x1 10
    ∧ TrackQueueV3_FuncA.call ⟨dt⟩ x0 x1 10 = x1 10
    ∧ TrackQueueV2_FuncA.call ⟨dt⟩ ![0, 0, 0, 0, 0, 0, 0, 0, 0, 0, 1] (fun _ => 0) 10
        ≠ (![0, 0, 0, 0, 0, 0, 0, 0, 0, 0, 1] : Fin 11 → ℝ) 10
    ∧ TrackQueueV3_FuncA.call ⟨dt⟩ ![0, 0, 0, 0, 0, 0, 0, 0, 0, 0, 1] (fun _ => 0) 10
        ≠ (![0, 0, 0, 0, 0, 0, 0, 0, 0, 0, 1] : Fin 11 → ℝ) 10 := by
  have h2 : ∀ a b : Fin 11 → ℝ, TrackQueueV2_FuncA.call ⟨dt⟩ a b 10 = b 10 := fun _ _ => rfl
  have h3 : ∀ a b : Fin 11 → ℝ, TrackQueueV3_FuncA.call ⟨dt⟩ a b 10 = b 10 := fun _ _ => rfl
  have hin : (![0, 0, 0, 0, 0, 0, 0, 0, 0, 0, 1] : Fin 11 → ℝ) 10 = 1 := rfl
  refine ⟨h2 x0 x1, h3 x0 x1, ?_, ?_⟩
  · rw [h2, hin]; norm_num
  · rw [h3, hin]; norm_num

/-- The result of `TrackQueueV4_FuncA`, as the code writes it. -/
theorem TrackQueueV4_FuncA_code (dt x y z v vz θ ω a : ℝ) (y0 : Fin 8 → ℝ) :
    TrackQueueV4_FuncA.call Real.cos Real.sin ⟨dt⟩ ![x, y, z, v, vz, θ, ω, a] y0
      = ![x + dt * v * Real.cos θ + 0.5 * dt * dt * a * Real.cos θ,
          y + dt * v * Real.sin θ + 0.5 * dt * dt * a * Real.sin θ,
          z + dt * vz, v + dt * a, vz, θ + dt * ω, ω, a] := by
  funext i
  fin_cases i <;> rfl

/-- C23: for every V4 state `(x, y, z, v, vz, θ, ω, a)` and every `dt`, `TrackQueueV4_FuncA`
returns `(x + (dt·v + ½·dt²·a)·cos θ, y + (dt·v + ½·dt²·a)·sin θ, z + dt·vz, v + dt·a, vz,
θ + dt·ω, ω, a)`; the planar displacement `(x' − x, y' − y)` is a multiple of the heading
vector `(cos θ, sin θ)`. -/
theorem TrackQueueV4_FuncA_polar (dt x y z v vz θ ω a : ℝ) (y0 : Fin 8 → ℝ) :
    TrackQueueV4_FuncA.call Real.cos Real.sin ⟨dt⟩ ![x, y, z, v, vz, θ, ω, a] y0
      = ![x + (dt * v + 1 / 2 * dt ^ 2 * a) * Real.cos θ,
          y + (dt * v + 1 / 2 * dt ^ 2 * a) * Real.sin θ,
          z + dt * vz, v + dt * a, vz, θ + dt * ω, ω, a]
    ∧ (∃ l : ℝ,
        TrackQueueV4_FuncA.call Real.cos Real.sin ⟨dt⟩ ![x, y, z, v, vz, θ, ω, a] y0 0 - x
            = l * Real.cos θ
        ∧ TrackQueueV4_FuncA.call Real.cos Real.sin ⟨dt⟩ ![x, y, z, v, vz, θ, ω, a] y0 1 - y
            = l * Real.sin θ)
    ∧ (TrackQueueV4_FuncA.call Real.cos Real.sin ⟨dt⟩ ![x, y, z, v, vz, θ, ω, a] y0 0 - x)
          * Real.sin θ
        - (TrackQueueV4_FuncA.call Real.cos Real.sin ⟨dt⟩ ![x, y, z, v, vz, θ, ω, a] y0 1 - y)
          * Real.cos θ = 0 := by
  have e0 : x + dt * v * Real.cos θ + 0.5 * dt * dt * a * Real.cos θ
      = x + (dt * v + 1 / 2 * dt ^ 2 * a) * Real.cos θ := by
    norm_num; ring
  have e1 : y + dt * v * Real.sin θ + 0.5 * dt * dt * a * Real.sin θ
      = y + (dt * v + 1 / 2 * dt ^ 2 * a) * Real.sin θ := by
    norm_num; ring
  rw [TrackQueueV4_FuncA_code, e0, e1]
  refine ⟨rfl, ⟨dt * v + 1 / 2 * dt ^ 2 * a, ?_, ?_⟩, ?_⟩
  · show x + (dt * v + 1 / 2 * dt ^ 2 * a) * Real.cos θ - x = _
    ring
  · show y + (dt * v + 1 / 2 * dt ^ 2 * a) * Real.sin θ - y = _
    ring
  · show (x + (dt * v + 1 / 2 * dt ^ 2 * a) * Real.cos θ - x) * Real.sin θ
        - (y + (dt * v + 1 / 2 * dt ^ 2 * a) * Real.sin θ - y) * Real.cos θ = 0
    ring

/-- The results of the three anti-top process functors, as the code writes them. -/
theorem Antitop_FuncA_code (dt x y z θ vx vy vz ω r : ℝ) (y0 : Fin 9 → ℝ) :
    AntitopV1_FuncA.call ⟨dt⟩ ![x, y, z, θ, vx, vy, vz, ω, r] y0
        = ![x + dt * vx, y + dt * vy, z + dt * vz, θ + dt * ω, vx, vy, vz, ω, r]
    ∧ AntitopV2_FuncA.call ⟨dt⟩ ![x, y, z, θ, vx, vy, vz, ω, r] y0
        = ![x + dt * vx, y + dt * vy, z + dt * vz, θ + dt * ω, vx, vy, vz, ω, r]
    ∧ AntitopV3_FuncA.call ⟨dt⟩ ![x, y, z, θ, vx, vy, vz, ω, r] y0
        = ![x + dt * vx, y + dt * vy, z + dt * vz, θ + dt * ω, vx, vy, vz, ω, r] := by
  refine ⟨?_, ?_, ?_⟩ <;>
  · funext i
    fin_cases i <;> rfl

/-- The results of the three anti-top observation functors, as the code writes them. -/
theorem Antitop_FuncH_code (x y z θ vx vy vz ω r : ℝ) (y0 : Fin 4 → ℝ) :
    AntitopV1_FuncH Real.cos Real.sin ![x, y, z, θ, vx, vy, vz, ω, r] y0
        = ![x - r * Real.cos θ, y - r * Real.sin θ, z, θ]
    ∧ AntitopV2_FuncH Real.cos Real.sin ![x, y, z, θ, vx, vy, vz, ω, r] y0
        = ![x - r * Real.cos θ, y - r * Real.sin θ, z, θ]
    ∧ AntitopV3_FuncH Real.cos Real.sin ![x, y, z, θ, vx, vy, vz, ω, r] y0
        = ![x - r * Real.cos θ, y - r * Real.sin θ, z, θ] := by
  refine ⟨?_, ?_, ?_⟩ <;>
  · funext i
    fin_cases i <;> rfl

/-- The orbit equation behind C24: a plate at `(cx − r·cos t, cy − r·sin t)` is at distance
`r` from `(cx, cy)`. -/
theorem orbit_identity (cx cy r t : ℝ) :
    (cx - r * Real.cos t - cx) ^ 2 + (cy - r * Real.sin t - cy) ^ 2 = r ^ 2 := by
  have h := Real.sin_sq_add_cos_sq t
  linear_combination r ^ 2 * h

/-- C24: for every anti-top state and every `dt`, with `s'` the state predicted by
`AntitopV1/V2/V3_FuncA` and `(ax, ay, az, φ)` its observation by `AntitopV1/V2/V3_FuncH`,
`(ax − (x + dt·vx))² + (ay − (y + dt·vy))² = r²`, `az = z + dt·vz` and `φ = θ + dt·ω`. -/
theorem antitop_predicted_plate_on_orbit (dt x y z θ vx vy vz ω r : ℝ) (y0 : Fin 9 → ℝ)
    (y1 : Fin 4 → ℝ) :
    ((AntitopV1_FuncH Real.cos Real.sin
          (AntitopV1_FuncA.call ⟨dt⟩ ![x, y, z, θ, vx, vy, vz, ω, r] y0) y1 0
            - (x + dt * vx)) ^ 2
        + (AntitopV1_FuncH Real.cos Real.sin
          (AntitopV1_FuncA.call ⟨dt⟩ ![x, y, z, θ, vx, vy, vz, ω, r] y0) y1 1
            - (y + dt * vy)) ^ 2 = r ^ 2
      ∧ AntitopV1_FuncH Real.cos Real.sin
          (AntitopV1_FuncA.call ⟨dt⟩ ![x, y, z, θ, vx, vy, vz, ω, r] y0) y1 2 = z + dt * vz
      ∧ AntitopV1_FuncH Real.cos Real.sin
          (AntitopV1_FuncA.call ⟨dt⟩ ![x, y, z, θ, vx, vy, vz, ω, r] y0) y1 3 = θ + dt * ω)
    ∧ ((AntitopV2_FuncH Real.cos Real.sin
          (AntitopV2_FuncA.call ⟨dt⟩ ![x, y, z, θ, vx, vy, vz, ω, r] y0) y1 0
            - (x + dt * vx)) ^ 2
        + (AntitopV2_FuncH Real.cos Real.sin
          (AntitopV2_FuncA.call ⟨dt⟩ ![x, y, z, θ, vx, vy, vz, ω, r] y0) y1 1
            - (y + dt * vy)) ^ 2 = r ^ 2
      ∧ AntitopV2_FuncH Real.cos Real.sin
          (AntitopV2_FuncA.call ⟨dt⟩ ![x, y, z, θ, vx, vy, vz, ω, r] y0) y1 2 = z + dt * vz
      ∧ AntitopV2_FuncH Real.cos Real.sin
          (AntitopV2_FuncA.call ⟨dt⟩ ![x, y, z, θ, vx, vy, vz, ω, r] y0) y1 3 = θ + dt * ω)
    ∧ ((AntitopV3_FuncH Real.cos Real.sin
          (AntitopV3_FuncA.call ⟨dt⟩ ![x, y, z, θ, vx, vy, vz, ω, r] y0) y1 0
            - (x + dt * vx)) ^ 2
        + (AntitopV3_FuncH Real.cos Real.sin
          (AntitopV3_FuncA.call ⟨dt⟩ ![x, y, z, θ, vx, vy, vz, ω, r] y0) y1 1
            - (y + dt * vy)) ^ 2 = r ^ 2
      ∧ AntitopV3_FuncH Real.cos Real.sin
          (AntitopV3_FuncA.call ⟨dt⟩ ![x, y, z, θ, vx, vy, vz, ω, r] y0) y1 2 = z + dt * vz
      ∧ AntitopV3_FuncH Real.cos Real.sin
          (AntitopV3_FuncA.call ⟨dt⟩ ![x, y, z, θ, vx, vy, vz, ω, r] y0) y1 3 = θ + dt * ω) := by
  have hA := Antitop_FuncA_code dt x y z θ vx vy vz ω r y0
  have hH := Antitop_FuncH_code (x + dt * vx) (y + dt * vy) (z + dt * vz) (θ + dt * ω)
    vx vy vz ω r y1
  have ho := orbit_identity (x + dt * vx) (y + dt * vy) r (θ + dt * ω)
  rw [hA.1, hA.2.1, hA.2.2, hH.1, hH.2.1, hH.2.2]
  exact ⟨⟨ho, rfl, rfl⟩, ⟨ho, rfl, rfl⟩, ⟨ho, rfl, rfl⟩⟩

/-- The results of the two small-rune process functors, as the code writes them. -/
theorem SmallRune_FuncA_code (dt x y z θ φ ω : ℝ) (y0 : Fin 6 → ℝ) :
    SmallRuneV1_FuncA.call ⟨dt⟩ ![x, y, z, θ, φ, ω] y0 = ![x, y, z, θ, φ + dt * ω, ω]
    ∧ SmallRuneV2_FuncA.call ⟨dt⟩ ![x, y, z, θ, φ, ω] y0 = ![x, y, z, θ, φ + dt * ω, ω] := by
  refine ⟨?_, ?_⟩ <;>
  · funext i
    fin_cases i <;> rfl

/-- The results of the two big-rune process functors, as the code writes them. -/
theorem BigRune_FuncA_code (dt sign x y z θ φ p a w : ℝ) (y0 : Fin 8 → ℝ) :
    BigRuneV1_FuncA.call Real.sin ⟨dt, sign⟩ ![x, y, z, θ, φ, p, a, w] y0
        = ![x, y, z, θ, φ + sign * dt * (2.090 - a) + sign * a * Real.sin p * dt,
            p + w * dt, a, w]
    ∧ BigRuneV2_FuncA.call Real.sin ⟨dt, sign⟩ ![x, y, z, θ, φ, p, a, w] y0
        = ![x, y, z, θ, φ + sign * dt * (2.090 - a) + sign * a * Real.sin p * dt,
            p + w * dt, a, w] := by
  refine ⟨?_, ?_⟩ <;>
  · funext i
    fin_cases i <;> rfl

/-- The results of the four rune observation functors, as the code writes them. -/
theorem Rune_FuncH_code (x y z θ φ ω p a w : ℝ) (y0 : Fin 5 → ℝ) :
    SmallRuneV1_FuncH Real.cos Real.sin ![x, y, z, θ, φ, ω] y0
        = ![x + R * Real.cos φ * Real.sin θ, y - R * Real.cos φ * Real.cos θ,
            z + R * Real.sin φ, θ, φ]
    ∧ SmallRuneV2_FuncH Real.cos Real.sin ![x, y, z, θ, φ, ω] y0
        = ![x + R * Real.cos φ * Real.sin θ, y - R * Real.cos φ * Real.cos θ,
            z + R * Real.sin φ, θ, φ]
    ∧ BigRuneV1_FuncH Real.cos Real.sin ![x, y, z, θ, φ, p, a, w] y0
        = ![x + R * Real.cos φ * Real.sin θ, y - R * Real.cos φ * Real.cos θ,
            z + R * Real.sin φ, θ, φ]
    ∧ BigRuneV2_FuncH Real.cos Real.sin ![x, y, z, θ, φ, p, a, w] y0
        = ![x + R * Real.cos φ * Real.sin θ, y - R * Real.cos φ * Real.cos θ,
            z + R * Real.sin φ, θ, φ] := by
  refine ⟨?_, ?_, ?_, ?_⟩ <;>
  · funext i
    fin_cases i <;> rfl

/-- The sphere equation behind C25: the tip
`(cx + ρ·cos φ·sin θ, cy − ρ·cos φ·cos θ, cz + ρ·sin φ)` is at distance `ρ` from
`(cx, cy, cz)`. -/
theorem blade_tip_identity (cx cy cz ρ θ φ : ℝ) :
    (cx + ρ * Real.cos φ * Real.sin θ - cx) ^ 2 + (cy - ρ * Real.cos φ * Real.cos θ - cy) ^ 2
      + (cz + ρ * Real.sin φ - cz) ^ 2 = ρ ^ 2 := by
  have h1 := Real.sin_sq_add_cos_sq θ
  have h2 := Real.sin_sq_add_cos_sq φ
  linear_combination (ρ ^ 2 * Real.cos φ ^ 2) * h1 + ρ ^ 2 * h2

/-- C25: for every small-rune or big-rune state and every `dt` (and every `sign`), the blade
tip `(bx, by, bz)` observed on the predicted state satisfies
`(bx − x)² + (by − y)² + (bz − z)² = R²` with `R = 0.69852`, and the predicted state has the
rune centre `(x, y, z)` of the input. -/
theorem rune_predicted_tip_on_sphere (dt sign x y z θ φ ω p a w : ℝ) (y0 : Fin 6 → ℝ)
    (z0 : Fin 8 → ℝ) (y1 : Fin 5 → ℝ) :
    ((SmallRuneV1_FuncH Real.cos Real.sin
          (SmallRuneV1_FuncA.call ⟨dt⟩ ![x, y, z, θ, φ, ω] y0) y1 0 - x) ^ 2
        + (SmallRuneV1_FuncH Real.cos Real.sin
          (SmallRuneV1_FuncA.call ⟨dt⟩ ![x, y, z, θ, φ, ω] y0) y1 1 - y) ^ 2
        + (SmallRuneV1_FuncH Real.cos Real.sin
          (SmallRuneV1_FuncA.call ⟨dt⟩ ![x, y, z, θ, φ, ω] y0) y1 2 - z) ^ 2 = (0.69852 : ℝ) ^ 2
      ∧ (SmallRuneV1_FuncA.call ⟨dt⟩ ![x, y, z, θ, φ, ω] y0) 0 = x
      ∧ (SmallRuneV1_FuncA.call ⟨dt⟩ ![x, y, z, θ, φ, ω] y0) 1 = y
      ∧ (SmallRuneV1_FuncA.call ⟨dt⟩ ![x, y, z, θ, φ, ω] y0) 2 = z)
    ∧ ((SmallRuneV2_FuncH Real.cos Real.sin
          (SmallRuneV2_FuncA.call ⟨dt⟩ ![x, y, z, θ, φ, ω] y0) y1 0 - x) ^ 2
        + (SmallRuneV2_FuncH Real.cos Real.sin
          (SmallRuneV2_FuncA.call ⟨dt⟩ ![x, y, z, θ, φ, ω] y0) y1 1 - y) ^ 2
        + (SmallRuneV2_FuncH Real.cos Real.sin
          (SmallRuneV2_FuncA.call ⟨dt⟩ ![x, y, z, θ, φ, ω] y0) y1 2 - z) ^ 2 = (0.69852 : ℝ) ^ 2
      ∧ (SmallRuneV2_FuncA.call ⟨dt⟩ ![x, y, z, θ, φ, ω] y0) 0 = x
      ∧ (SmallRuneV2_FuncA.call ⟨dt⟩ ![x, y, z, θ, φ, ω] y0) 1 = y
      ∧ (SmallRuneV2_FuncA.call ⟨dt⟩ ![x, y, z, θ, φ, ω] y0) 2 = z)
    ∧ ((BigRuneV1_FuncH Real.cos Real.sin
          (BigRuneV1_FuncA.call Real.sin ⟨dt, sign⟩ ![x, y, z, θ, φ, p, a, w] z0) y1 0 - x) ^ 2
        + (BigRuneV1_FuncH Real.cos Real.sin
          (BigRuneV1_FuncA.call Real.sin ⟨dt, sign⟩ ![x, y, z, θ, φ, p, a, w] z0) y1 1 - y) ^ 2
        + (BigRuneV1_FuncH Real.cos Real.sin
          (BigRuneV1_FuncA.call Real.sin ⟨dt, sign⟩ ![x, y, z, θ, φ, p, a, w] z0) y1 2 - z) ^ 2 = (0.69852 : ℝ) ^ 2
      ∧ (BigRuneV1_FuncA.call Real.sin ⟨dt, sign⟩ ![x, y, z, θ, φ, p, a, w] z0) 0 = x
      ∧ (BigRuneV1_FuncA.call Real.sin ⟨dt, sign⟩ ![x, y, z, θ, φ, p, a, w] z0) 1 = y
      ∧ (BigRuneV1_FuncA.call Real.sin ⟨dt, sign⟩ ![x, y, z, θ, φ, p, a, w] z0) 2 = z)
    ∧ ((BigRuneV2_FuncH Real.cos Real.sin
          (BigRuneV2_FuncA.call Real.sin ⟨dt, sign⟩ ![x, y, z, θ, φ, p, a, w] z0) y1 0 - x) ^ 2
        + (BigRuneV2_FuncH Real.cos Real.sin
          (BigRuneV2_FuncA.call Real.sin ⟨dt, sign⟩ ![x, y, z, θ, φ, p, a, w] z0) y1 1 - y) ^ 2
        + (BigRuneV2_FuncH Real.cos Real.sin
          (BigRuneV2_FuncA.call Real.sin ⟨dt, sign⟩ ![x, y, z, θ, φ, p, a, w] z0) y1 2 - z) ^ 2 = (0.69852 : ℝ) ^ 2
      ∧ (BigRuneV2_FuncA.call Real.sin ⟨dt, sign⟩ ![x, y, z, θ, φ, p, a, w] z0) 0 = x
      ∧ (BigRuneV2_FuncA.call Real.sin ⟨dt, sign⟩ ![x, y, z, θ, φ, p, a, w] z0) 1 = y
      ∧ (BigRuneV2_FuncA.call Real.sin ⟨dt, sign⟩ ![x, y, z, θ, φ, p, a, w] z0) 2 = z) := by
  have hS := SmallRune_FuncA_code dt x y z θ φ ω y0
  have hB := BigRune_FuncA_code dt sign x y z θ φ p a w z0
  have hHS := Rune_FuncH_code x y z θ (φ + dt * ω) ω p a w y1
  have hHB := Rune_FuncH_code x y z θ
    (φ + sign * dt * (2.090 - a) + sign * a * Real.sin p * dt) ω (p + w * dt) a w y1
  have hR : (R : ℝ) = 0.69852 := rfl
  have tS := blade_tip_identity x y z R θ (φ + dt * ω)
  have tB := blade_tip_identity x y z R θ
    (φ + sign * dt * (2.090 - a) + sign * a * Real.sin p * dt)
  rw [hS.1, hS.2, hB.1, hB.2, hHS.1, hHS.2.1, hHB.2.2.1, hHB.2.2.2, ← hR]
  exact ⟨⟨tS, rfl, rfl, rfl⟩, ⟨tS, rfl, rfl, rfl⟩, ⟨tB, rfl, rfl, rfl⟩, ⟨tB, rfl, rfl, rfl⟩⟩

/-- C26: for every big-rune state with `A_MIN ≤ a ≤ A_MAX`, every phase `p` and every
`dt ≥ 0`, the angular speed `a·sin p + (2.090 − a)` is not negative; with `sign = +1` the
big-rune transition (`runeV1.h` and `runeV2.h`) gives `φ' ≥ φ`, and with `sign = −1` it gives
`φ' ≤ φ`. -/
theorem bigRune_never_backwards (dt x y z θ φ p a w : ℝ) (y0 : Fin 8 → ℝ)
    (hlo : (A_MIN : ℝ) ≤ a) (hhi : a ≤ (A_MAX : ℝ)) (hdt : 0 ≤ dt) :
    0 ≤ a * Real.sin p + (2.090 - a)
    ∧ φ ≤ BigRuneV1_FuncA.call Real.sin ⟨dt, 1⟩ ![x, y, z, θ, φ, p, a, w] y0 4
    ∧ φ ≤ BigRuneV2_FuncA.call Real.sin ⟨dt, 1⟩ ![x, y, z, θ, φ, p, a, w] y0 4
    ∧ BigRuneV1_FuncA.call Real.sin ⟨dt, -1⟩ ![x, y, z, θ, φ, p, a, w] y0 4 ≤ φ
    ∧ BigRuneV2_FuncA.call Real.sin ⟨dt, -1⟩ ![x, y, z, θ, φ, p, a, w] y0 4 ≤ φ := by
  have hlo2 : (0.780 : ℝ) ≤ a := hlo
  have hhi2 : a ≤ (1.045 : ℝ) := hhi
  have ha : (0 : ℝ) ≤ a := by
    have h78 : (0 : ℝ) ≤ 0.780 := by norm_num
    exact le_trans h78 hlo2
  have hsin : 0 ≤ 1 + Real.sin p := by
    have := Real.neg_one_le_sin p
    linarith
  have hprod : 0 ≤ a * (1 + Real.sin p) := mul_nonneg ha hsin
  have hspeed : 0 ≤ a * Real.sin p + (2.090 - a) := by
    have h209 : (2.090 : ℝ) = 2 * 1.045 := by norm_num
    rw [h209]
    linarith
  have hstep : 0 ≤ dt * (a * Real.sin p + (2.090 - a)) := mul_nonneg hdt hspeed
  have hp := BigRune_FuncA_code dt 1 x y z θ φ p a w y0
  have hm := BigRune_FuncA_code dt (-1) x y z θ φ p a w y0
  rw [hp.1, hp.2, hm.1, hm.2]
  have vp : (![x, y, z, θ, φ + 1 * dt * (2.090 - a) + 1 * a * Real.sin p * dt,
      p + w * dt, a, w] : Fin 8 → ℝ) 4
      = φ + dt * (a * Real.sin p + (2.090 - a)) := by
    show φ + 1 * dt * (2.090 - a) + 1 * a * Real.sin p * dt = _
    ring
  have vm : (![x, y, z, θ, φ + -1 * dt * (2.090 - a) + -1 * a * Real.sin p * dt,
      p + w * dt, a, w] : Fin 8 → ℝ) 4
      = φ - dt * (a * Real.sin p + (2.090 - a)) := by
    show φ + -1 * dt * (2.090 - a) + -1 * a * Real.sin p * dt = _
    ring
  rw [vp, vm]
  refine ⟨hspeed, ?_, ?_, ?_, ?_⟩ <;> linarith

/-- C26, at a concrete input: `a = 1` lies in `[A_MIN, A_MAX]`, `dt = 1 ≥ 0`, and from
`φ = 0`, `p = 0`, `w = 2` the blade angle does not decrease with `sign = +1`. -/
theorem bigRune_never_backwards_witness :
    (A_MIN : ℝ) ≤ 1 ∧ (1 : ℝ) ≤ A_MAX ∧ (0 : ℝ) ≤ 1
    ∧ (0 : ℝ) ≤ BigRuneV2_FuncA.call Real.sin ⟨1, 1⟩ ![0, 0, 0, 0, 0, 0, 1, 2] (fun _ => 0) 4 := by
  have h1 : (A_MIN : ℝ) ≤ 1 := by simp only [A_MIN]; norm_num
  have h2 : (1 : ℝ) ≤ A_MAX := by simp only [A_MAX]; norm_num
  have h3 : (0 : ℝ) ≤ 1 := by norm_num
  exact ⟨h1, h2, h3,
    (bigRune_never_backwards 1 0 0 0 0 0 0 1 2 (fun _ => 0) h1 h2 h3).2.2.1⟩

/-- C27: the blade-angle increment of both big-rune transitions is
`sign·dt·(a·sin p + 2.090 − a)`; for a functor whose `sign` member has its default value
`0.0`, the transition leaves `φ` unchanged for every state and every `dt`. -/
theorem bigRune_FuncA_increment (dt sign x y z θ φ p a w : ℝ) (y0 : Fin 8 → ℝ) :
    BigRuneV1_FuncA.call Real.sin ⟨dt, sign⟩ ![x, y, z, θ, φ, p, a, w] y0 4 - φ
        = sign * dt * (a * Real.sin p + 2.090 - a)
    ∧ BigRuneV2_FuncA.call Real.sin ⟨dt, sign⟩ ![x, y, z, θ, φ, p, a, w] y0 4 - φ
        = sign * dt * (a * Real.sin p + 2.090 - a)
    ∧ BigRuneV1_FuncA.call Real.sin { dt := dt } ![x, y, z, θ, φ, p, a, w] y0 4 = φ
    ∧ BigRuneV2_FuncA.call Real.sin { dt := dt } ![x, y, z, θ, φ, p, a, w] y0 4 = φ := by
  have hc := BigRune_FuncA_code dt sign x y z θ φ p a w y0
  have hd := BigRune_FuncA_code dt 0.0 x y z θ φ p a w y0
  have d1 : ({ dt := dt } : BigRuneV1_FuncA ℝ) = ⟨dt, 0.0⟩ := rfl
  have d2 : ({ dt := dt } : BigRuneV2_FuncA ℝ) = ⟨dt, 0.0⟩ := rfl
  rw [d1, d2, hc.1, hc.2, hd.1, hd.2]
  have v : ∀ e : ℝ, (![x, y, z, θ, e, p + w * dt, a, w] : Fin 8 → ℝ) 4 = e := fun _ => rfl
  rw [v, v]
  refine ⟨?_, ?_, ?_, ?_⟩
  · ring
  · ring
  · norm_num
  · norm_num

/-- C28: for every big-rune state, every `dt` and every `sign`, both big-rune transitions
leave the centre `(x, y, z)`, the orientation `θ`, the amplitude `a` and the frequency `w`
unchanged and return the phase `p + w·dt`. -/
theorem bigRune_FuncA_frame (dt sign x y z θ φ p a w : ℝ) (y0 : Fin 8 → ℝ) :
    (BigRuneV1_FuncA.call Real.sin ⟨dt, sign⟩ ![x, y, z, θ, φ, p, a, w] y0 0 = x
      ∧ BigRuneV1_FuncA.call Real.sin ⟨dt, sign⟩ ![x, y, z, θ, φ, p, a, w] y0 1 = y
      ∧ BigRuneV1_FuncA.call Real.sin ⟨dt, sign⟩ ![x, y, z, θ, φ, p, a, w] y0 2 = z
      ∧ BigRuneV1_FuncA.call Real.sin ⟨dt, sign⟩ ![x, y, z, θ, φ, p, a, w] y0 3 = θ
      ∧ BigRuneV1_FuncA.call Real.sin ⟨dt, sign⟩ ![x, y, z, θ, φ, p, a, w] y0 6 = a
      ∧ BigRuneV1_FuncA.call Real.sin ⟨dt, sign⟩ ![x, y, z, θ, φ, p, a, w] y0 7 = w
      ∧ BigRuneV1_FuncA.call Real.sin ⟨dt, sign⟩ ![x, y, z, θ, φ, p, a, w] y0 5 = p + w * dt)
    ∧ (BigRuneV2_FuncA.call Real.sin ⟨dt, sign⟩ ![x, y, z, θ, φ, p, a, w] y0 0 = x
      ∧ BigRuneV2_FuncA.call Real.sin ⟨dt, sign⟩ ![x, y, z, θ, φ, p, a, w] y0 1 = y
      ∧ BigRuneV2_FuncA.call Real.sin ⟨dt, sign⟩ ![x, y, z, θ, φ, p, a, w] y0 2 = z
      ∧ BigRuneV2_FuncA.call Real.sin ⟨dt, sign⟩ ![x, y, z, θ, φ, p, a, w] y0 3 = θ
      ∧ BigRuneV2_FuncA.call Real.sin ⟨dt, sign⟩ ![x, y, z, θ, φ, p, a, w] y0 6 = a
      ∧ BigRuneV2_FuncA.call Real.sin ⟨dt, sign⟩ ![x, y, z, θ, φ, p, a, w] y0 7 = w
      ∧ BigRuneV2_FuncA.call Real.sin ⟨dt, sign⟩ ![x, y, z, θ, φ, p, a, w] y0 5 = p + w * dt) := by
  have hc := BigRune_FuncA_code dt sign x y z θ φ p a w y0
  rw [hc.1, hc.2]
  exact ⟨⟨rfl, rfl, rfl, rfl, rfl, rfl, rfl⟩, ⟨rfl, rfl, rfl, rfl, rfl, rfl, rfl⟩⟩

/-- C29: the anti-top process functors compose additively in time: for every state and all
`dt1`, `dt2`, the step `dt1` followed by the step `dt2` gives the state of the single step
`dt1 + dt2`, and the step `dt = 0` returns the state unchanged (whatever the output arrays
held before). -/
theorem antitop_FuncA_additive (dt1 dt2 x y z θ vx vy vz ω r : ℝ) (y0 y1 y2 : Fin 9 → ℝ) :
    (AntitopV1_FuncA.call ⟨dt2⟩ (AntitopV1_FuncA.call ⟨dt1⟩ ![x, y, z, θ, vx, vy, vz, ω, r] y0) y1
        = AntitopV1_FuncA.call ⟨dt1 + dt2⟩ ![x, y, z, θ, vx, vy, vz, ω, r] y2
      ∧ AntitopV1_FuncA.call ⟨0⟩ ![x, y, z, θ, vx, vy, vz, ω, r] y0 = ![x, y, z, θ, vx, vy, vz, ω, r])
    ∧ (AntitopV2_FuncA.call ⟨dt2⟩ (AntitopV2_FuncA.call ⟨dt1⟩ ![x, y, z, θ, vx, vy, vz, ω, r] y0) y1
        = AntitopV2_FuncA.call ⟨dt1 + dt2⟩ ![x, y, z, θ, vx, vy, vz, ω, r] y2
      ∧ AntitopV2_FuncA.call ⟨0⟩ ![x, y, z, θ, vx, vy, vz, ω, r] y0 = ![x, y, z, θ, vx, vy, vz, ω, r])
    ∧ (AntitopV3_FuncA.call ⟨dt2⟩ (AntitopV3_FuncA.call ⟨dt1⟩ ![x, y, z, θ, vx, vy, vz, ω, r] y0) y1
        = AntitopV3_FuncA.call ⟨dt1 + dt2⟩ ![x, y, z, θ, vx, vy, vz, ω, r] y2
      ∧ AntitopV3_FuncA.call ⟨0⟩ ![x, y, z, θ, vx, vy, vz, ω, r] y0 = ![x, y, z, θ, vx, vy, vz, ω, r]) := by
  have h1 := Antitop_FuncA_code dt1 x y z θ vx vy vz ω r y0
  have h2 := Antitop_FuncA_code dt2 (x + dt1 * vx) (y + dt1 * vy) (z + dt1 * vz)
    (θ + dt1 * ω) vx vy vz ω r y1
  have h12 := Antitop_FuncA_code (dt1 + dt2) x y z θ vx vy vz ω r y2
  have h0 := Antitop_FuncA_code 0 x y z θ vx vy vz ω r y0
  have e : ∀ u v : ℝ, u + dt1 * v + dt2 * v = u + (dt1 + dt2) * v := fun u v => by ring
  have e0 : ∀ u v : ℝ, u + 0 * v = u := fun u v => by ring
  refine ⟨⟨?_, ?_⟩, ⟨?_, ?_⟩, ⟨?_, ?_⟩⟩
  · rw [h1.1, h2.1, h12.1, e x vx, e y vy, e z vz, e θ ω]
  · rw [h0.1, e0 x vx, e0 y vy, e0 z vz, e0 θ ω]
  · rw [h1.2.1, h2.2.1, h12.2.1, e x vx, e y vy, e z vz, e θ ω]
  · rw [h0.2.1, e0 x vx, e0 y vy, e0 z vz, e0 θ ω]
  · rw [h1.2.2, h2.2.2, h12.2.2, e x vx, e y vy, e z vz, e θ ω]
  · rw [h0.2.2, e0 x vx, e0 y vy, e0 z vz, e0 θ ω]

/-- C30: for every `TQstateV1` / `TQstateV2` slot state, `clear()` leaves `last_t` and
`last_pose` unchanged, and the fields `count`, `keep`, `exist`, `available`, `last_t` and
`last_pose` after `clear(); clear()` equal those after a single `clear()`. -/
theorem TQstate_clear_idempotent {Time T KF Std : Type} (restart : KF → KF)
    (clearStd : Std → Std) (s1 : TQstateV1 Time T KF Std) (s2 : TQstateV2 Time T KF Std) :
    ((s1.clear restart clearStd).last_t = s1.last_t
      ∧ (s1.clear restart clearStd).last_pose = s1.last_pose
      ∧ ((s1.clear restart clearStd).clear restart clearStd).count
          = (s1.clear restart clearStd).count
      ∧ ((s1.clear restart clearStd).clear restart clearStd).exist
          = (s1.clear restart clearStd).exist
      ∧ ((s1.clear restart clearStd).clear restart clearStd).available
          = (s1.clear restart clearStd).available
      ∧ ((s1.clear restart clearStd).clear restart clearStd).last_t
          = (s1.clear restart clearStd).last_t
      ∧ ((s1.clear restart clearStd).clear restart clearStd).last_pose
          = (s1.clear restart clearStd).last_pose)
    ∧ ((s2.clear restart clearStd).last_t = s2.last_t
      ∧ (s2.clear restart clearStd).last_pose = s2.last_pose
      ∧ ((s2.clear restart clearStd).clear restart clearStd).count
          = (s2.clear restart clearStd).count
      ∧ ((s2.clear restart clearStd).clear restart clearStd).keep
          = (s2.clear restart clearStd).keep
      ∧ ((s2.clear restart clearStd).clear restart clearStd).exist
          = (s2.clear restart clearStd).exist
      ∧ ((s2.clear restart clearStd).clear restart clearStd).available
          = (s2.clear restart clearStd).available
      ∧ ((s2.clear restart clearStd).clear restart clearStd).last_t
          = (s2.clear restart clearStd).last_t
      ∧ ((s2.clear restart clearStd).clear restart clearStd).last_pose
          = (s2.clear restart clearStd).last_pose) :=
  ⟨⟨rfl, rfl, rfl, rfl, rfl, rfl, rfl⟩, ⟨rfl, rfl, rfl, rfl, rfl, rfl, rfl, rfl⟩⟩

end rm
